import Mathlib

/-!
# godet command line (`cmd/godet/main.go`)

A shallow embedding of `main`, of its helper functions and of the event
handlers it registers.  The program talks to the browser through the
`godet.RemoteDebugger` client; every answer of that client is a field of
`World`, every call the program makes is recorded in a trace of `Action`s.

Lines 47-110 of `main` (the search for a browser binary, which only yields the
default of `-cmd`, and the declaration of the flags) are represented by their
result, the record `Flags`.  The handlers run in the goroutine of the client;
`runHandler` gives what one invocation does, `main` what the main goroutine
does, with the receive on `done` as one of its actions.
-/

namespace Godet

/-! ## Values exchanged with the protocol client -/

/-- A decoded JSON value (`interface{}` in the source).  `null` is Go's `nil`,
which is also what indexing a map at an absent key yields.  Numbers arrive as
`float64` and the program only ever converts them with `int(...)`; `num`
carries the integer that conversion yields. -/
inductive Value where
  | null : Value
  | bool (b : Bool) : Value
  | num (n : Int) : Value
  | str (s : String) : Value
  | arr (items : List Value) : Value
  | obj (fields : List (String × Value)) : Value

/-- The type `map[string]interface{}` (also `godet.Params`). -/
abbrev Params := List (String × Value)

/-- Go's `m[k]` on a `map[string]interface{}`: `nil` when the key is absent. -/
def index (m : Params) (k : String) : Value :=
  match m.lookup k with
  | some v => v
  | none => Value.null

/-- Go's `v != nil` on an `interface{}`. -/
def Value.notNil : Value → Bool
  | Value.null => false
  | _ => true

/-- A `*godet.RemoteDebugger`, identified by a handle. -/
abbrev Conn := Nat

/-- The pointer variable `remote`; `none` is the nil pointer. -/
abbrev Remote := Option Conn

/-- The navigation decisions `godet.NavigationProceed`, `godet.NavigationCancel`
and `godet.NavigationCancelAndIgnore`. -/
inductive NavigationResponse where
  | NavigationProceed
  | NavigationCancel
  | NavigationCancelAndIgnore
  deriving DecidableEq, Repr

/-- An entry of the tab list (`godet.Tab`): its identifier and its URL. -/
structure Tab where
  ID : String
  URL : String
  deriving DecidableEq, Repr

/-- The fields of `godet.Version` that `main` reads. -/
structure Version where
  Browser : String
  ProtocolVersion : String
  deriving DecidableEq, Repr

/-- The closures that `main` passes to `CallbackEvent`, with the variables each
one captures besides the `done` channel. -/
inductive Handler where
  /-- lines 174-177, for `godet.EventClosed` -/
  | closed
  /-- lines 180-185 -/
  | requestWillBeSent
  /-- lines 189-213 -/
  | responseReceived
  /-- lines 217-220 -/
  | entryAdded
  /-- lines 222-257 -/
  | consoleAPICalled
  /-- lines 273-277 -/
  | navigationRequested (remote : Remote) (navigationResponse : NavigationResponse)
  /-- lines 286-291 -/
  | screenshot (remote : Remote)
  /-- lines 295-300 -/
  | pdf (remote : Remote)
  deriving DecidableEq, Repr

/-- Modelled from the spec: the event names handlers are registered under.
`godet.EventClosed` is declared outside `main.go`; it is the distinguished
"connection closed" name, kept apart from the method names written as string
literals in `main`. -/
inductive EventName where
  | EventClosed
  | method (name : String)
  deriving DecidableEq, Repr

/-- The methods of `*godet.RemoteDebugger` that the program calls, with their
arguments. -/
inductive Call where
  | Close
  | Version
  | TabList (filter : String)
  | GetDomains
  | CallbackEvent (method : EventName) (cb : Handler)
  | SetControlNavigations (enabled : Bool)
  | ProcessNavigation (navigationId : Int) (navigation : NavigationResponse)
  | SetBlockedURLs (urls : List String)
  | SaveScreenshot (filename : String) (perm : Nat) (quality : Nat) (fromSurface : Bool)
  | SavePDF (filename : String) (perm : Nat)
  | NewTab (url : String)
  | ActivateTab (tab : Tab)
  | AllEvents (enable : Bool)
  | RuntimeEvents (enable : Bool)
  | NetworkEvents (enable : Bool)
  | PageEvents (enable : Bool)
  | DOMEvents (enable : Bool)
  | LogEvents (enable : Bool)
  | Navigate (url : String)
  | GetDocument
  | QuerySelector (nodeId : Int) (selector : String)
  | ResolveNode (nodeId : Int)
  | EvaluateWrap (expr : String)
  | SetOuterHTML (nodeId : Int) (outerHTML : String)
  | GetOuterHTML (nodeId : Int)
  deriving DecidableEq, Repr

/-- One argument of a `log.Println` call. -/
inductive LogArg where
  | str (s : String)
  /-- a string given by its bytes -/
  | bytes (b : List UInt8)
  | val (v : Value)
  | int (n : Int)
  | nav (r : NavigationResponse)

/-- What `pretty.PrettyPrint` is given. -/
inductive Printed where
  | version (v : Version)
  | tabs (l : List Tab)
  | domains (d : List (String × String))
  | result (r : Option Params)
  | value (v : Value)

/-- The observable steps of the program, in the order they are taken. -/
inductive Action where
  /-- `exec.Command(parts[0], parts[1:]...).Start()` -/
  | start (name : String) (args : List String)
  /-- `time.Sleep`, in milliseconds -/
  | sleep (ms : Nat)
  /-- `godet.Connect(port, verbose)` -/
  | connect (port : String) (verbose : Bool)
  /-- a method call on `remote` -/
  | call (remote : Remote) (c : Call)
  /-- `log.Println` -/
  | log (args : List LogArg)
  /-- `pretty.PrettyPrint` -/
  | prettyPrint (p : Printed)
  /-- `done <- true` -/
  | send
  /-- `<-done` -/
  | recv

/-! ## Programs: a trace and how the run ended -/

/-- The ways a run stops short of returning. -/
inductive Stop where
  /-- `log.Fatal(msg, err)` (or `log.Fatal(msg)` when `err` is `none`) -/
  | fatal (msg : String) (err : Option String)
  /-- a run-time panic -/
  | panic (what : String)
  /-- blocked for ever on a channel operation -/
  | blocked
  deriving DecidableEq, Repr

/-- A piece of program: the actions it performs, then its value or the way it
stopped. -/
structure Prog (α : Type) where
  trace : List Action
  res : Except Stop α

namespace Prog

/-- Sequencing: the second piece runs only when the first returned. -/
def andThen {α β : Type} (m : Prog α) (f : α → Prog β) : Prog β :=
  match m.res with
  | Except.ok a => ⟨m.trace ++ (f a).trace, (f a).res⟩
  | Except.error e => ⟨m.trace, Except.error e⟩

instance : Monad Prog where
  pure a := ⟨[], Except.ok a⟩
  bind := andThen

end Prog

/-- Perform one action. -/
def emit (a : Action) : Prog Unit := ⟨[a], Except.ok ()⟩

/-- Stop the run. -/
def stop {α : Type} (s : Stop) : Prog α := ⟨[], Except.error s⟩

/-- `defer a` around `body`: `a` runs when `body` returns and when it panics,
not when the process exits through `log.Fatal` nor when it never returns. -/
def withDefer {α : Type} (a : Action) (body : Prog α) : Prog α :=
  match body.res with
  | Except.ok _ => ⟨body.trace ++ [a], body.res⟩
  | Except.error (Stop.panic _) => ⟨body.trace ++ [a], body.res⟩
  | Except.error _ => body

/-! ## Type assertions -/

/-- `v.(map[string]interface{})` -/
def assertMap (v : Value) : Prog Params :=
  match v with
  | Value.obj fields => pure fields
  | _ => stop (Stop.panic "interface conversion")

/-- `v.([]interface{})` -/
def assertSlice (v : Value) : Prog (List Value) :=
  match v with
  | Value.arr items => pure items
  | _ => stop (Stop.panic "interface conversion")

/-- `v.(string)` -/
def assertString (v : Value) : Prog String :=
  match v with
  | Value.str s => pure s
  | _ => stop (Stop.panic "interface conversion")

/-- `v.(float64)` -/
def assertFloat64 (v : Value) : Prog Int :=
  match v with
  | Value.num n => pure n
  | _ => stop (Stop.panic "interface conversion")

/-! ## The environment -/

/-- Library functions the program uses and `main.go` does not define. -/
structure Lib where
  /-- `args.GetArgs` -/
  GetArgs : String → List String
  /-- `godet.Params.String` -/
  paramsString : Params → String → String
  /-- `godet.Params.Int` -/
  paramsInt : Params → String → Int
  /-- `simplejson.AsJson(res).GetPath("root", "nodeId").MustInt(-1)` -/
  rootNodeId : Option Params → Int
  /-- `fmt.Sprintf("%q: ", v)` -/
  sprintfQ : Value → String
  /-- `fmt.Sprintf("%v", v)` -/
  sprintfV : Value → String

/-- The three places where `main` resolves the document and queries it. -/
inductive Site where
  | query
  | setHtml
  | html
  deriving DecidableEq, Repr

/-- What the outside world answers.  Each field is the result of one call of
the program; `connect i` is the result of call number `i` (from 0) of
`godet.Connect`. -/
structure World where
  /-- the error of `cmd.Start()` -/
  start : List String → Option String
  /-- `godet.Connect`: the pointer and the error returned by each attempt -/
  connect : Nat → Remote × Option String
  Version : Except String Version
  /-- `TabList(*filter)` at line 155 -/
  TabListFilter : Except String (List Tab)
  GetDomains : Except String (List (String × String))
  /-- `TabList("page")` at line 308 -/
  TabListPage : Except String (List Tab)
  /-- the error of `NewTab` -/
  NewTab : String → Option String
  /-- the error of `ActivateTab` -/
  ActivateTab : Tab → Option String
  /-- the error of `Navigate` -/
  Navigate : String → Option String
  GetDocument : Site → Except String (Option Params)
  QuerySelector : Site → Int → String → Except String (Option Params)
  ResolveNode : Int → Except String (Option Params)
  EvaluateWrap : String → Except String Value
  /-- the error of `SetOuterHTML` -/
  SetOuterHTML : Int → String → Option String
  GetOuterHTML : Int → Except String String
  /-- whether a send on `done` ever meets the receive of `main` -/
  doneSent : Bool

/-- The command line after `flag.Parse()`: the value of every flag and the
positional arguments. -/
structure Flags where
  cmd : String
  port : String := "localhost:9222"
  verbose : Bool := false
  version : Bool := false
  listtabs : Bool := false
  seltab : Int := 0
  newtab : Bool := false
  filter : String := "page"
  domains : Bool := false
  requests : Bool := false
  responses : Bool := false
  allEvents : Bool := false
  logev : Bool := false
  query : String := ""
  eval : String := ""
  screenshot : Bool := false
  pdf : Bool := false
  control : String := ""
  block : String := ""
  html : Bool := false
  setHtml : String := ""
  wait : Bool := false
  /-- `flag.Args()` -/
  args : List String := []

/-! ## Helper functions of `main.go` -/

/-- `runCommand` (lines 19-23); the value is the error of `cmd.Start()`.
`parts[0]` panics on an empty argument list. -/
def runCommand (lib : Lib) (w : World) (commandString : String) : Prog (Option String) :=
  match lib.GetArgs commandString with
  | [] => stop (Stop.panic "index out of range")
  | name :: rest => do
    emit (Action.start name rest)
    pure (w.start (name :: rest))

/-- The bytes of a Go `string`: the UTF-8 encoding of the text. -/
def goBytes (s : String) : List UInt8 :=
  s.toUTF8.data.toList

/-- `limit` (lines 25-30), on the bytes of the string: `len(s)` counts bytes
and `s[:l]` keeps the first `l` of them.  The one call of the source passes
`l = 80`. -/
def limit (s : List UInt8) (l : Nat) : List UInt8 :=
  if s.length > l then s.take l ++ goBytes "..." else s

/-- `log.Fatal(msg, err)` -/
def fatal {α : Type} (msg : String) (err : Option String) : Prog α :=
  stop (Stop.fatal msg err)

/-- A call on `remote` that returns `(value, err)`, followed by
`if err != nil { log.Fatal(msg, err) }`. -/
def callOrFatal {α : Type} (remote : Remote) (c : Call) (result : Except String α)
    (msg : String) : Prog α := do
  emit (Action.call remote c)
  match result with
  | Except.ok v => pure v
  | Except.error e => fatal msg (some e)

/-- `if err != nil { log.Fatal(msg, err) }` -/
def fatalIf (err : Option String) (msg : String) : Prog Unit :=
  match err with
  | none => pure ()
  | some e => fatal msg (some e)

/-- `documentNode` (lines 32-44), called from site `s` of `main`. -/
def documentNode (lib : Lib) (w : World) (s : Site) (remote : Remote) (verbose : Bool) :
    Prog Int := do
  let res ← callOrFatal remote Call.GetDocument (w.GetDocument s) "error getting document: "
  if verbose then
    emit (Action.prettyPrint (Printed.result res))
  pure (lib.rootNodeId res)

/-! ## The event handlers registered by `main` -/

/-- The body of the loop at lines 235-246: the text appended to `v` for the
properties of a preview, `i` being the index of the first one. -/
def previewProperties (lib : Lib) : List Value → Nat → String → Prog String
  | [], _, v => pure v
  | p :: rest, i, v => do
    let v1 := if i > 0 then v ++ ", " else v
    let prop ← assertMap p
    let v2 := if (index prop "name").notNil then v1 ++ lib.sprintfQ (index prop "name") else v1
    previewProperties lib rest (i + 1) (v2 ++ lib.sprintfV (index prop "value"))

/-- The loop at lines 225-254: the arguments of the console call, appended to
the slice `l`. -/
def consoleArgs (lib : Lib) : List Value → List LogArg → Prog (List LogArg)
  | [], l => pure l
  | a :: rest, l => do
    let arg ← assertMap a
    if (index arg "value").notNil then
      consoleArgs lib rest (l ++ [LogArg.val (index arg "value")])
    else if (index arg "preview").notNil then
      let preview ← assertMap (index arg "preview")
      let description ← assertString (index preview "description")
      let properties ← assertSlice (index preview "properties")
      let v ← previewProperties lib properties 0 (description ++ "\x7b")
      consoleArgs lib rest (l ++ [LogArg.str (v ++ "\x7d")])
    else
      let t ← assertString (index arg "type")
      consoleArgs lib rest (l ++ [LogArg.str t])

/-- What a handler does with the parameters of one event. -/
def runHandler (lib : Lib) (h : Handler) (params : Params) : Prog Unit :=
  match h with
  | Handler.closed => do
    emit (Action.log [LogArg.str "RemoteDebugger connection terminated."])
    emit Action.send
  | Handler.requestWillBeSent => do
    let request ← assertMap (index params "request")
    emit (Action.log [LogArg.str "requestWillBeSent", LogArg.val (index params "type"),
      LogArg.val (index params "documentURL"), LogArg.val (index request "url")])
  | Handler.responseReceived => do
    let resp ← assertMap (index params "response")
    let url ← assertString (index resp "url")
    let status ← assertFloat64 (index resp "status")
    let mimeType ← assertString (index resp "mimeType")
    emit (Action.log [LogArg.str "responseReceived", LogArg.val (index params "type"),
      LogArg.bytes (limit (goBytes url) 80), LogArg.str "\n\t\t\t", LogArg.int status,
      LogArg.str mimeType])
  | Handler.entryAdded => do
    let entry ← assertMap (index params "entry")
    emit (Action.log [LogArg.str "LOG", LogArg.val (index entry "type"),
      LogArg.val (index entry "level"), LogArg.val (index entry "text")])
  | Handler.consoleAPICalled => do
    let t ← assertString (index params "type")
    let args ← assertSlice (index params "args")
    let l ← consoleArgs lib args [LogArg.str "CONSOLE", LogArg.str t]
    emit (Action.log l)
  | Handler.navigationRequested remote navigationResponse => do
    emit (Action.log [LogArg.str "navigation requested for",
      LogArg.str (lib.paramsString params "url"), LogArg.nav navigationResponse])
    emit (Action.call remote
      (Call.ProcessNavigation (lib.paramsInt params "navigationId") navigationResponse))
  | Handler.screenshot remote => do
    emit (Action.log [LogArg.str "document updated. taking screenshot..."])
    emit (Action.call remote (Call.SaveScreenshot "screenshot.png" 0o644 0 true))
    emit Action.send
  | Handler.pdf remote => do
    emit (Action.log [LogArg.str "document updated. saving as PDF..."])
    emit (Action.call remote (Call.SavePDF "page.pdf" 0o644))
    emit Action.send

/-! ## `main` -/

/-- The state of the connection loop: the variables `remote` and `err`. -/
abbrev ConnState := Remote × Option String

/-- The loop `for i := 0; i < 10; i++` of lines 121-132, entered at index `i`
with `remaining = 10 - i` iterations still allowed. -/
def connectLoop (cfg : Flags) (w : World) : (remaining : Nat) → (i : Nat) → ConnState →
    Prog ConnState
  | 0, _, st => pure st
  | remaining + 1, i, _ => do
    if i > 0 then
      emit (Action.sleep 500)
    emit (Action.connect cfg.port cfg.verbose)
    match (w.connect i).2 with
    | none => pure (w.connect i)
    | some e => do
      emit (Action.log [LogArg.str "connect", LogArg.str e])
      connectLoop cfg w remaining (i + 1) (w.connect i)

/-- Lines 112-116: start the browser when `-cmd` is not empty. -/
def launch (lib : Lib) (cfg : Flags) (w : World) : Prog Unit := do
  if cfg.cmd ≠ "" then
    match ← runCommand lib w cfg.cmd with
    | some e => emit (Action.log [LogArg.str "cannot start browser", LogArg.str e])
    | none => pure ()

/-- Lines 143-172: the version, and the `-tabs` and `-domains` listings.  The
value is the variable `should_wait`. -/
def showInfo (cfg : Flags) (w : World) (remote : Remote) : Prog Bool := do
  let v ← callOrFatal remote Call.Version w.Version "cannot get version: "
  if cfg.version then
    emit (Action.prettyPrint (Printed.version v))
  else
    emit (Action.log [LogArg.str "connected to", LogArg.str v.Browser,
      LogArg.str "protocol version", LogArg.str v.ProtocolVersion])
  let w1 ← (if cfg.listtabs then do
      let tabs ← callOrFatal remote (Call.TabList cfg.filter) w.TabListFilter
        "cannot get list of tabs: "
      emit (Action.prettyPrint (Printed.tabs tabs))
      pure false
    else pure true : Prog Bool)
  if cfg.domains then
    let d ← callOrFatal remote Call.GetDomains w.GetDomains "cannot get domains: "
    emit (Action.prettyPrint (Printed.domains d))
    pure false
  else
    pure w1

/-- The `switch *control` of lines 262-271. -/
def navigationResponse (control : String) : NavigationResponse :=
  if control = "proceed" then NavigationResponse.NavigationProceed
  else if control = "cancel" then NavigationResponse.NavigationCancel
  else if control = "cancelIgnore" then NavigationResponse.NavigationCancelAndIgnore
  else NavigationResponse.NavigationProceed

/-- `remote.CallbackEvent(method, cb)` -/
def register (remote : Remote) (method : EventName) (cb : Handler) : Prog Unit :=
  emit (Action.call remote (Call.CallbackEvent method cb))

/-- Lines 174-301: the handlers are registered, navigation control and URL
blocking are set up. -/
def registerHandlers (cfg : Flags) (remote : Remote) : Prog Unit := do
  register remote EventName.EventClosed Handler.closed
  if cfg.requests then
    register remote (EventName.method "Network.requestWillBeSent") Handler.requestWillBeSent
  if cfg.responses then
    register remote (EventName.method "Network.responseReceived") Handler.responseReceived
  if cfg.logev then
    register remote (EventName.method "Log.entryAdded") Handler.entryAdded
    register remote (EventName.method "Runtime.consoleAPICalled") Handler.consoleAPICalled
  if cfg.control ≠ "" then
    emit (Action.call remote (Call.SetControlNavigations true))
    register remote (EventName.method "Page.navigationRequested")
      (Handler.navigationRequested remote (navigationResponse cfg.control))
  if cfg.block ≠ "" then
    emit (Action.call remote (Call.SetBlockedURLs (cfg.block.splitOn "|")))
  if cfg.screenshot then
    register remote (EventName.method "DOM.documentUpdated") (Handler.screenshot remote)
  if cfg.pdf then
    register remote (EventName.method "DOM.documentUpdated") (Handler.pdf remote)

/-- Go's `tabs[tab]`: a panic when `tab` is negative or not below `len(tabs)`. -/
def indexTabs (tabs : List Tab) (tab : Int) : Prog Tab :=
  if tab < 0 then stop (Stop.panic "index out of range")
  else
    match tabs.get? tab.toNat with
    | some t => pure t
    | none => stop (Stop.panic "index out of range")

/-- Lines 303-328: a tab is created or selected when there is a positional
argument.  The value is the variable `site`. -/
def selectTab (cfg : Flags) (w : World) (remote : Remote) : Prog String :=
  match cfg.args with
  | [] => pure ""
  | site :: _ => do
    let tabs ← callOrFatal remote (Call.TabList "page") w.TabListPage "cannot get tabs: "
    if tabs.length = 0 ∨ cfg.newtab = true then
      emit (Action.call remote (Call.NewTab site))
      fatalIf (w.NewTab site) "error loading page: "
      pure ""
    else
      let tab := if cfg.seltab > tabs.length then 0 else cfg.seltab
      let t ← indexTabs tabs tab
      emit (Action.call remote (Call.ActivateTab t))
      fatalIf (w.ActivateTab t) "error loading page: "
      pure site

/-- Lines 333-341. -/
def enableEvents (cfg : Flags) (remote : Remote) : Prog Unit := do
  if cfg.allEvents then
    emit (Action.call remote (Call.AllEvents true))
  else
    emit (Action.call remote (Call.RuntimeEvents true))
    emit (Action.call remote (Call.NetworkEvents true))
    emit (Action.call remote (Call.PageEvents true))
    emit (Action.call remote (Call.DOMEvents true))
    emit (Action.call remote (Call.LogEvents true))

/-- Lines 343-348. -/
def navigate (w : World) (remote : Remote) (site : String) : Prog Unit := do
  if site.length > 0 then
    emit (Action.call remote (Call.Navigate site))
    fatalIf (w.Navigate site) "error loading page: "

/-- Lines 350-371: `-query`. -/
def doQuery (lib : Lib) (cfg : Flags) (w : World) (remote : Remote) : Prog Unit := do
  let id ← documentNode lib w Site.query remote cfg.verbose
  let res ← callOrFatal remote (Call.QuerySelector id cfg.query)
    (w.QuerySelector Site.query id cfg.query) "error in querySelector: "
  match res with
  | none => emit (Action.log [LogArg.str "no result for", LogArg.str cfg.query])
  | some r => do
    let nodeId ← assertFloat64 (index r "nodeId")
    let res2 ← callOrFatal remote (Call.ResolveNode nodeId) (w.ResolveNode nodeId)
      "error in resolveNode: "
    emit (Action.prettyPrint (Printed.result res2))

/-- Lines 373-381: `-eval`. -/
def doEval (cfg : Flags) (w : World) (remote : Remote) : Prog Unit := do
  let res ← callOrFatal remote (Call.EvaluateWrap cfg.eval) (w.EvaluateWrap cfg.eval)
    "error in evaluate: "
  emit (Action.prettyPrint (Printed.value res))

/-- Lines 383-399: `-set-html`. -/
def doSetHtml (lib : Lib) (cfg : Flags) (w : World) (remote : Remote) : Prog Unit := do
  let id ← documentNode lib w Site.setHtml remote cfg.verbose
  let res ← callOrFatal remote (Call.QuerySelector id "html")
    (w.QuerySelector Site.setHtml id "html") "error in querySelector: "
  let nodeId ← assertFloat64 (index (res.getD []) "nodeId")
  emit (Action.call remote (Call.SetOuterHTML nodeId cfg.setHtml))
  fatalIf (w.SetOuterHTML nodeId cfg.setHtml) "error in setOuterHTML: "

/-- Lines 401-411: `-html`. -/
def doHtml (lib : Lib) (cfg : Flags) (w : World) (remote : Remote) : Prog Unit := do
  let id ← documentNode lib w Site.html remote cfg.verbose
  let res ← callOrFatal remote (Call.GetOuterHTML id) (w.GetOuterHTML id)
    "error in getOuterHTML: "
  emit (Action.log [LogArg.str res])

/-- Lines 350-411: the one-shot operations.  The argument and the value are
the variable `should_wait`. -/
def oneShots (lib : Lib) (cfg : Flags) (w : World) (remote : Remote) (should_wait : Bool) :
    Prog Bool := do
  let w1 ← (if cfg.query ≠ "" then do
      doQuery lib cfg w remote
      pure false
    else pure should_wait : Prog Bool)
  let w2 ← (if cfg.eval ≠ "" then do
      doEval cfg w remote
      pure false
    else pure w1 : Prog Bool)
  let w3 ← (if cfg.setHtml ≠ "" then do
      doSetHtml lib cfg w remote
      pure false
    else pure w2 : Prog Bool)
  if cfg.html then
    doHtml lib cfg w remote
    pure false
  else
    pure w3

/-- Lines 413-418: the receive on `done`, then the last log line. -/
def waitAndClose (cfg : Flags) (w : World) (should_wait : Bool) : Prog Unit := do
  if cfg.wait || should_wait then
    emit (Action.log [LogArg.str "Wait for events..."])
    emit Action.recv
    if w.doneSent = false then
      stop Stop.blocked
  emit (Action.log [LogArg.str "Closing"])

/-- Lines 140-328, up to the comment of lines 330-332: the listings, the
handlers, the tab.  The value is the pair of `should_wait` and `site`. -/
def setup (cfg : Flags) (w : World) (remote : Remote) : Prog (Bool × String) := do
  let should_wait ← showInfo cfg w remote
  registerHandlers cfg remote
  let site ← selectTab cfg w remote
  pure (should_wait, site)

/-- Lines 333-418: events are enabled, then the navigation, the one-shot
operations and the wait. -/
def operate (lib : Lib) (cfg : Flags) (w : World) (remote : Remote) (should_wait : Bool)
    (site : String) : Prog Unit := do
  enableEvents cfg remote
  navigate w remote site
  let w1 ← oneShots lib cfg w remote should_wait
  waitAndClose cfg w w1

/-- Lines 140-418: what `main` does once it holds a connection. -/
def session (lib : Lib) (cfg : Flags) (w : World) (remote : Remote) : Prog Unit := do
  let p ← setup cfg w remote
  operate lib cfg w remote p.1 p.2

/-- The function `main` from line 112 on, for the flags `cfg`.  `log.Fatal`
does not return, so what follows line 136 is the other branch of the test of
`err`. -/
def main (lib : Lib) (cfg : Flags) (w : World) : Prog Unit := do
  launch lib cfg w
  let st ← connectLoop cfg w 10 0 (none, none)
  if st.2 ≠ none then
    fatal "cannot connect to browser" none
  else
    withDefer (Action.call st.1 Call.Close) (session lib cfg w st.1)

/-! ## Observations on traces -/

/-- A call of `godet.Connect`. -/
def isConnect : Action → Bool
  | Action.connect _ _ => true
  | _ => false

/-- A call of `time.Sleep`. -/
def isSleep : Action → Bool
  | Action.sleep _ => true
  | _ => false

/-- The log line of a failed connection attempt, `log.Println("connect", err)`. -/
def isConnectFailure : Action → Bool
  | Action.log [LogArg.str "connect", LogArg.str _] => true
  | _ => false

/-- A method call on a `*godet.RemoteDebugger`, whatever the method. -/
def isCall : Action → Bool
  | Action.call _ _ => true
  | _ => false

/-- The receive on the `done` channel. -/
def isRecv : Action → Bool
  | Action.recv => true
  | _ => false

/-- A send on the `done` channel. -/
def isSend : Action → Bool
  | Action.send => true
  | _ => false

/-- Every action of the piece of program satisfies `Q` and every way it stops
satisfies `S`. -/
def Prog.Sat {α : Type} (Q : Action → Prop) (S : Stop → Prop) (m : Prog α) : Prop :=
  (∀ a ∈ m.trace, Q a) ∧ ∀ s, m.res = Except.error s → S s

/-- The calls of lines 143-172. -/
def inInfo (cfg : Flags) : Call → Bool
  | Call.Version => true
  | Call.TabList f => f = cfg.filter
  | Call.GetDomains => true
  | _ => false

/-- The calls of lines 174-301. -/
def inRegister : Call → Bool
  | Call.CallbackEvent _ _ => true
  | Call.SetControlNavigations _ => true
  | Call.SetBlockedURLs _ => true
  | _ => false

/-- A call that creates or selects a tab. -/
def isTabChoice : Call → Bool
  | Call.NewTab _ => true
  | Call.ActivateTab _ => true
  | _ => false

/-- The calls of lines 303-328. -/
def inSelectTab : Call → Bool
  | Call.TabList f => f = "page"
  | c => isTabChoice c

/-- A call that enables events. -/
def isEnable : Call → Bool
  | Call.AllEvents _ => true
  | Call.RuntimeEvents _ => true
  | Call.NetworkEvents _ => true
  | Call.PageEvents _ => true
  | Call.DOMEvents _ => true
  | Call.LogEvents _ => true
  | _ => false

/-- A call of `Navigate`. -/
def isNavigate : Call → Bool
  | Call.Navigate _ => true
  | _ => false

/-- The calls of lines 350-411. -/
def inOneShots : Call → Bool
  | Call.GetDocument => true
  | Call.QuerySelector _ _ => true
  | Call.ResolveNode _ => true
  | Call.EvaluateWrap _ => true
  | Call.SetOuterHTML _ _ => true
  | Call.GetOuterHTML _ => true
  | _ => false

/-- No call at all. -/
def noCall : Call → Bool := fun _ => false

/-- The actions of a section of `main` that works on `remote`: calls on
`remote` that `allowed` accepts, log lines other than that of a failed
connection attempt, pretty-printed values and, when `mayRecv` is set, the
receive on `done`. -/
def SectionAction (remote : Remote) (allowed : Call → Bool) (mayRecv : Bool) : Action → Prop
  | Action.call r c => r = remote ∧ allowed c = true
  | Action.log l => isConnectFailure (Action.log l) = false
  | Action.prettyPrint _ => True
  | Action.recv => mayRecv = true
  | _ => False

/-- The ways the session stops: a fatal error that carries its cause, a panic,
or the wait that never ends. -/
def SessionStop : Stop → Prop
  | Stop.fatal _ none => False
  | _ => True

/-- The ways the session stops before the wait of line 413: a fatal error that
carries its cause, or a panic. -/
def EarlyStop : Stop → Prop
  | Stop.fatal _ (some _) => True
  | Stop.panic _ => True
  | _ => False

/-- The actions of the connection loop. -/
def LoopAction : Action → Prop
  | Action.sleep _ => True
  | Action.connect _ _ => True
  | Action.log _ => True
  | _ => False

/-- The calls `main` makes between the connection and the deferred `Close`. -/
def inSession (cfg : Flags) (c : Call) : Bool :=
  inInfo cfg c || inRegister c || inSelectTab c || isEnable c || isNavigate c || inOneShots c

/-- An action that is neither a connection attempt, nor a sleep, nor the log
line of a failed attempt, and that, if a call, is a call on `remote`. -/
def AfterConnect (remote : Remote) (a : Action) : Prop :=
  isConnect a = false ∧ isSleep a = false ∧ isConnectFailure a = false ∧
    ∀ r c, a = Action.call r c → r = remote

/-- An action that is neither a connection attempt, nor a sleep, nor the log
line of a failed attempt, nor a call on a connection. -/
def BeforeConnect (a : Action) : Prop :=
  isConnect a = false ∧ isSleep a = false ∧ isConnectFailure a = false ∧ isCall a = false ∧
    isRecv a = false

/-- A method call that `p` accepts, on whatever connection. -/
def callIs (p : Call → Bool) : Action → Bool
  | Action.call _ c => p c
  | _ => false

/-- A call of `NewTab`. -/
def isNewTab : Call → Bool
  | Call.NewTab _ => true
  | _ => false

/-- A call of `ActivateTab`. -/
def isActivateTab : Call → Bool
  | Call.ActivateTab _ => true
  | _ => false

/-- A call of `ResolveNode`. -/
def isResolveNode : Call → Bool
  | Call.ResolveNode _ => true
  | _ => false

/-- The calls that enable events, as the comment of lines 330-332 and the
flag `-all-events` describe them: `AllEvents(true)` alone, or else the five
domains in the order runtime, network, page, DOM, log. -/
def enableCalls (cfg : Flags) (remote : Remote) : List Action :=
  if cfg.allEvents then [Action.call remote (Call.AllEvents true)]
  else [Action.call remote (Call.RuntimeEvents true),
    Action.call remote (Call.NetworkEvents true),
    Action.call remote (Call.PageEvents true),
    Action.call remote (Call.DOMEvents true),
    Action.call remote (Call.LogEvents true)]

/-- The run gets as far as the tab selection of line 305, holding the
connection `remote`: the browser command did not panic, an attempt among the
ten returned `remote` without error, and lines 143-172 ended without a fatal
error. -/
def ReachesSelection (lib : Lib) (cfg : Flags) (w : World) (remote : Remote) : Prop :=
  (launch lib cfg w).res = Except.ok () ∧
  (∃ f, f < 10 ∧ (∀ i, i < f → (w.connect i).2 ≠ none) ∧ w.connect f = (remote, none)) ∧
  ∃ sw, (showInfo cfg w remote).res = Except.ok sw

/-- An action that is no call of `NewTab`, `ActivateTab` or `Navigate`. -/
def NoTabMove (a : Action) : Prop :=
  callIs isNewTab a = false ∧ callIs isActivateTab a = false ∧ callIs isNavigate a = false

/-- The run gets to the end of `main`: it returns, or it stays blocked in
the receive of line 415. -/
def Prog.Ends {α : Type} (m : Prog α) : Prop :=
  ∀ s, m.res = Except.error s → s = Stop.blocked

/-- The calls of lines 350-411 other than `ResolveNode`. -/
def inOneShotsNoResolve (c : Call) : Bool :=
  inOneShots c && !isResolveNode c

/-- A call of `ProcessNavigation`. -/
def isProcessNavigation : Call → Bool
  | Call.ProcessNavigation _ _ => true
  | _ => false

/-- A call of `SaveScreenshot`. -/
def isSaveScreenshot : Call → Bool
  | Call.SaveScreenshot _ _ _ _ => true
  | _ => false

/-- What lines 174-301 call on `remote`, flag by flag, in the order of the
source. -/
def registrations (cfg : Flags) (remote : Remote) : List Action :=
  [Action.call remote (Call.CallbackEvent EventName.EventClosed Handler.closed)] ++
  (if cfg.requests then [Action.call remote (Call.CallbackEvent
    (EventName.method "Network.requestWillBeSent") Handler.requestWillBeSent)] else []) ++
  (if cfg.responses then [Action.call remote (Call.CallbackEvent
    (EventName.method "Network.responseReceived") Handler.responseReceived)] else []) ++
  (if cfg.logev then [Action.call remote (Call.CallbackEvent
      (EventName.method "Log.entryAdded") Handler.entryAdded),
    Action.call remote (Call.CallbackEvent
      (EventName.method "Runtime.consoleAPICalled") Handler.consoleAPICalled)] else []) ++
  (if cfg.control ≠ "" then [Action.call remote (Call.SetControlNavigations true),
    Action.call remote (Call.CallbackEvent (EventName.method "Page.navigationRequested")
      (Handler.navigationRequested remote (navigationResponse cfg.control)))] else []) ++
  (if cfg.block ≠ "" then
    [Action.call remote (Call.SetBlockedURLs (cfg.block.splitOn "|"))] else []) ++
  (if cfg.screenshot then [Action.call remote (Call.CallbackEvent
    (EventName.method "DOM.documentUpdated") (Handler.screenshot remote))] else []) ++
  (if cfg.pdf then [Action.call remote (Call.CallbackEvent
    (EventName.method "DOM.documentUpdated") (Handler.pdf remote))] else [])

/-- Modelled from the spec: the handler registry of the Event Dispatcher
(`CallbackEvent` is implemented outside `main.go`).  The handlers registered
under `name` by the calls of a trace, in registration order. -/
def handlersFor (name : EventName) (trace : List Action) : List Handler :=
  trace.filterMap fun a =>
    match a with
    | Action.call _ (Call.CallbackEvent n h) => if n = name then some h else none
    | _ => none

/-- Modelled from the spec: the delivery of one event by the Event Dispatcher
(it is implemented outside `main.go`).  Each handler is invoked in turn, in
registration order, with the parameters of the event; a crash of a handler is
not trapped. -/
def invokeAll (lib : Lib) (params : Params) : List Handler → Prog Unit
  | [] => pure ()
  | h :: rest => do
    runHandler lib h params
    invokeAll lib params rest

/-- Modelled from the spec: one event named `name` is delivered to the
handlers that the calls of `trace` registered for that name. -/
def deliver (lib : Lib) (trace : List Action) (name : EventName) (params : Params) :
    Prog Unit :=
  invokeAll lib params (handlersFor name trace)

/-! ## The parameters the logging handlers rely on -/

/-- The value is a `map[string]interface{}`. -/
def Value.isMap : Value → Bool
  | Value.obj _ => true
  | _ => false

/-- The value is a `string`. -/
def Value.isString : Value → Bool
  | Value.str _ => true
  | _ => false

/-- The value is a `float64`. -/
def Value.isNumber : Value → Bool
  | Value.num _ => true
  | _ => false

/-- The parameters of "Network.requestWillBeSent" hold a map under "request". -/
def requestShape (params : Params) : Bool :=
  (index params "request").isMap

/-- The parameters of "Network.responseReceived" hold under "response" a map
with a string "url", a number "status" and a string "mimeType". -/
def responseShape (params : Params) : Bool :=
  match index params "response" with
  | Value.obj resp =>
    (index resp "url").isString && (index resp "status").isNumber &&
      (index resp "mimeType").isString
  | _ => false

/-- The parameters of "Log.entryAdded" hold a map under "entry". -/
def entryShape (params : Params) : Bool :=
  (index params "entry").isMap

/-- A preview is a map with a string "description" and, under "properties", a
slice of maps. -/
def previewShape (preview : Value) : Bool :=
  match preview with
  | Value.obj pv =>
    (index pv "description").isString &&
      (match index pv "properties" with
        | Value.arr ps => ps.all Value.isMap
        | _ => false)
  | _ => false

/-- An argument of a console call is a map that has a "value", or else a
well-shaped "preview", or else, with neither, a string "type". -/
def consoleArgShape (a : Value) : Bool :=
  match a with
  | Value.obj arg =>
    (index arg "value").notNil ||
      (if (index arg "preview").notNil then previewShape (index arg "preview")
        else (index arg "type").isString)
  | _ => false

/-- The parameters of "Runtime.consoleAPICalled" hold a string "type" and,
under "args", a slice of well-shaped arguments. -/
def consoleShape (params : Params) : Bool :=
  (index params "type").isString &&
    (match index params "args" with
      | Value.arr args => args.all consoleArgShape
      | _ => false)

/-- The shape of the parameters that each logging handler relies on. -/
def expectedShape : Handler → Params → Bool
  | Handler.requestWillBeSent, params => requestShape params
  | Handler.responseReceived, params => responseShape params
  | Handler.entryAdded, params => entryShape params
  | Handler.consoleAPICalled, params => consoleShape params
  | _, _ => true

/-- The handlers registered by `-requests`, `-responses` and `-log`. -/
def isLoggingHandler : Handler → Bool
  | Handler.requestWillBeSent => true
  | Handler.responseReceived => true
  | Handler.entryAdded => true
  | Handler.consoleAPICalled => true
  | _ => false

/-- The handler logged one line and returned. -/
def LoggedAndReturned (m : Prog Unit) : Prop :=
  m.res = Except.ok () ∧ ∃ l, m.trace = [Action.log l]

/-- The handler panicked on a type assertion before it logged anything. -/
def PanickedBeforeLogging (m : Prog Unit) : Prop :=
  m.res = Except.error (Stop.panic "interface conversion") ∧ m.trace = []

/-! ## Sample inputs -/

/-- Library functions for the sample runs: the command is split at blanks,
absent or ill-typed parameters read as `""` and `0`, the root node is 1. -/
def sampleLib : Lib where
  GetArgs := fun s => s.splitOn " "
  paramsString := fun p k => match index p k with
    | Value.str v => v
    | _ => ""
  paramsInt := fun p k => match index p k with
    | Value.num n => n
    | _ => 0
  rootNodeId := fun _ => 1
  sprintfQ := fun _ => "?: "
  sprintfV := fun _ => "?"

/-- A browser that accepts the first connection, as connection 1, has no tab
open, and answers every call without error; the selector queries match no
node. -/
def quietWorld : World where
  start := fun _ => none
  connect := fun _ => (some 1, none)
  Version := Except.ok ⟨"Chrome", "1.3"⟩
  TabListFilter := Except.ok []
  GetDomains := Except.ok []
  TabListPage := Except.ok []
  NewTab := fun _ => none
  ActivateTab := fun _ => none
  Navigate := fun _ => none
  GetDocument := fun _ => Except.ok none
  QuerySelector := fun _ _ _ => Except.ok none
  ResolveNode := fun _ => Except.ok none
  EvaluateWrap := fun _ => Except.ok Value.null
  SetOuterHTML := fun _ _ => none
  GetOuterHTML := fun _ => Except.ok ""
  doneSent := true

/-- Scenario A: the target URL as only argument, every flag at its default
and no browser command. -/
def scenarioA : Flags where
  cmd := ""
  args := ["https://example.com"]

/-- Both `-screenshot` and `-pdf`, with the target URL as argument. -/
def bothShots : Flags where
  cmd := ""
  screenshot := true
  pdf := true
  args := ["https://example.com"]

/-- The quiet browser with one tab open. -/
def oneTabWorld : World :=
  { quietWorld with TabListPage := Except.ok [⟨"T0", "about:blank"⟩] }

/-- The target URL with `-tab 1`. -/
def tabOne : Flags where
  cmd := ""
  seltab := 1
  args := ["https://example.com"]

/-- The target URL with `-tab -1`. -/
def tabMinusOne : Flags where
  cmd := ""
  seltab := -1
  args := ["https://example.com"]

/-- The target URL with `-tab 2`. -/
def tabTwo : Flags where
  cmd := ""
  seltab := 2
  args := ["https://example.com"]

/-- Scenario D: the quiet browser, reached only by the fourth connection
attempt. -/
def flakyWorld : World :=
  { quietWorld with
    connect := fun i => if i < 3 then (none, some "connection refused") else (some 1, none) }

/-- A browser that refuses every connection. -/
def unreachableWorld : World :=
  { quietWorld with connect := fun _ => (none, some "connection refused") }

/-- Scenario C: `-query h1` with the target URL. -/
def queryH1 : Flags where
  cmd := ""
  query := "h1"
  args := ["https://example.com"]

/-- The flags `-control cancel`. -/
def controlCancel : Flags where
  cmd := ""
  control := "cancel"

/-- The parameters of a navigation request with identifier 7. -/
def navigationParams : Params :=
  [("navigationId", Value.num 7), ("url", Value.str "https://example.com")]

/-- Scenario B: `-screenshot` alone, with the target URL. -/
def screenshotOnly : Flags where
  cmd := ""
  screenshot := true
  args := ["https://example.com"]

/-- The parameters of a request event that hold the request. -/
def requestParams : Params :=
  [("documentURL", Value.str "https://example.com"),
    ("request", Value.obj [("url", Value.str "https://example.com/logo.png")])]

/-! ## Basic facts on programs -/

theorem bind_eq {α β : Type} (m : Prog α) (f : α → Prog β) : m >>= f = Prog.andThen m f := rfl

theorem pure_eq {α : Type} (a : α) : (pure a : Prog α) = ⟨[], Except.ok a⟩ := rfl

theorem andThen_ok {α β : Type} (m : Prog α) (f : α → Prog β) (a : α)
    (h : m.res = Except.ok a) :
    Prog.andThen m f = ⟨m.trace ++ (f a).trace, (f a).res⟩ := by
  simp [Prog.andThen, h]

theorem andThen_error {α β : Type} (m : Prog α) (f : α → Prog β) (e : Stop)
    (h : m.res = Except.error e) :
    Prog.andThen m f = ⟨m.trace, Except.error e⟩ := by
  simp [Prog.andThen, h]

theorem sat_pure {α : Type} {Q : Action → Prop} {S : Stop → Prop} (a : α) :
    Prog.Sat Q S (pure a : Prog α) := by
  constructor
  · intro x hx; simp [pure_eq] at hx
  · intro s hs; simp [pure_eq] at hs

theorem sat_emit {Q : Action → Prop} {S : Stop → Prop} {a : Action} (h : Q a) :
    Prog.Sat Q S (emit a) := by
  constructor
  · intro x hx
    simp [emit] at hx
    exact hx ▸ h
  · intro s hs; simp [emit] at hs

theorem sat_stop {α : Type} {Q : Action → Prop} {S : Stop → Prop} {s : Stop} (h : S s) :
    Prog.Sat Q S (stop s : Prog α) := by
  constructor
  · intro x hx; simp [stop] at hx
  · intro t ht
    simp [stop] at ht
    exact ht ▸ h

theorem sat_bind {α β : Type} {Q : Action → Prop} {S : Stop → Prop} {m : Prog α}
    {f : α → Prog β} (hm : Prog.Sat Q S m) (hf : ∀ a, m.res = Except.ok a → Prog.Sat Q S (f a)) :
    Prog.Sat Q S (m >>= f) := by
  rw [bind_eq]
  cases hres : m.res with
  | error e =>
    rw [andThen_error m f e hres]
    exact ⟨hm.1, fun s hs => hm.2 s (by simpa [hres] using hs)⟩
  | ok a =>
    rw [andThen_ok m f a hres]
    refine ⟨?_, (hf a hres).2⟩
    intro x hx
    rcases List.mem_append.mp hx with h | h
    · exact hm.1 x h
    · exact (hf a hres).1 x h

theorem sat_mono {α : Type} {Q Q2 : Action → Prop} {S S2 : Stop → Prop} {m : Prog α}
    (hm : Prog.Sat Q S m) (hQ : ∀ a, Q a → Q2 a) (hS : ∀ s, S s → S2 s) : Prog.Sat Q2 S2 m :=
  ⟨fun a ha => hQ a (hm.1 a ha), fun s hs => hS s (hm.2 s hs)⟩

/-! ## The actions of each section of `main` -/

theorem sat_callOrFatal {α : Type} {Q : Action → Prop} (remote : Remote) (c : Call)
    (result : Except String α) (msg : String) (h : Q (Action.call remote c)) :
    Prog.Sat Q EarlyStop (callOrFatal remote c result msg) := by
  unfold callOrFatal
  refine sat_bind (sat_emit h) (fun _ _ => ?_)
  cases result with
  | ok v => exact sat_pure v
  | error e => exact sat_stop (by simp [EarlyStop])

theorem sat_fatalIf {Q : Action → Prop} (err : Option String) (msg : String) :
    Prog.Sat Q EarlyStop (fatalIf err msg) := by
  unfold fatalIf
  cases err with
  | none => exact sat_pure ()
  | some e => exact sat_stop (by simp [EarlyStop])

theorem sat_showInfo (cfg : Flags) (w : World) (remote : Remote) :
    Prog.Sat (SectionAction remote (inInfo cfg) false) EarlyStop (showInfo cfg w remote) := by
  unfold showInfo
  repeat' first
    | apply sat_callOrFatal
    | apply sat_fatalIf
    | apply sat_bind
    | apply sat_emit
    | apply sat_pure
    | intro _ _
    | split
  all_goals simp [SectionAction, inInfo, isConnectFailure]

theorem sat_registerHandlers {S : Stop → Prop} (cfg : Flags) (remote : Remote) :
    Prog.Sat (SectionAction remote inRegister false) S
      (registerHandlers cfg remote) := by
  unfold registerHandlers register
  repeat' first
    | apply sat_bind
    | apply sat_emit
    | apply sat_pure
    | intro _ _
    | split
  all_goals simp [SectionAction, inRegister]

theorem sat_indexTabs {Q : Action → Prop} (tabs : List Tab) (tab : Int) :
    Prog.Sat Q EarlyStop (indexTabs tabs tab) := by
  unfold indexTabs
  repeat' first
    | apply sat_pure
    | apply sat_stop
    | split
  all_goals simp [EarlyStop]

theorem sat_selectTab (cfg : Flags) (w : World) (remote : Remote) :
    Prog.Sat (SectionAction remote inSelectTab false) EarlyStop
      (selectTab cfg w remote) := by
  unfold selectTab
  repeat' first
    | apply sat_callOrFatal
    | apply sat_fatalIf
    | apply sat_indexTabs
    | apply sat_bind
    | apply sat_emit
    | apply sat_pure
    | intro _ _
    | split
  all_goals simp [SectionAction, inSelectTab, isTabChoice]

theorem sat_enableEvents {S : Stop → Prop} (cfg : Flags) (remote : Remote) :
    Prog.Sat (SectionAction remote isEnable false) S (enableEvents cfg remote) := by
  unfold enableEvents
  repeat' first
    | apply sat_bind
    | apply sat_emit
    | apply sat_pure
    | intro _ _
    | split
  all_goals simp [SectionAction, isEnable]

theorem sat_navigate (w : World) (remote : Remote) (site : String) :
    Prog.Sat (SectionAction remote isNavigate false) EarlyStop (navigate w remote site) := by
  unfold navigate
  repeat' first
    | apply sat_fatalIf
    | apply sat_bind
    | apply sat_emit
    | apply sat_pure
    | intro _ _
    | split
  all_goals simp [SectionAction, isNavigate]

theorem sat_assertFloat64 {Q : Action → Prop} (v : Value) :
    Prog.Sat Q EarlyStop (assertFloat64 v) := by
  unfold assertFloat64
  split
  · exact sat_pure _
  · exact sat_stop (by simp [EarlyStop])

theorem sat_documentNode (lib : Lib) (w : World) (s : Site) (remote : Remote) (verbose : Bool) :
    Prog.Sat (SectionAction remote inOneShots false) EarlyStop
      (documentNode lib w s remote verbose) := by
  unfold documentNode
  repeat' first
    | apply sat_callOrFatal
    | apply sat_bind
    | apply sat_emit
    | apply sat_pure
    | intro _ _
    | split
  all_goals simp [SectionAction, inOneShots]

theorem sat_oneShots (lib : Lib) (cfg : Flags) (w : World) (remote : Remote) (sw : Bool) :
    Prog.Sat (SectionAction remote inOneShots false) EarlyStop
      (oneShots lib cfg w remote sw) := by
  unfold oneShots doQuery doEval doSetHtml doHtml
  repeat' first
    | apply sat_callOrFatal
    | apply sat_fatalIf
    | apply sat_documentNode
    | apply sat_assertFloat64
    | apply sat_bind
    | apply sat_emit
    | apply sat_pure
    | intro _ _
    | split
  all_goals simp [SectionAction, inOneShots, isConnectFailure]

theorem sat_waitAndClose (cfg : Flags) (w : World) (sw : Bool) (remote : Remote) :
    Prog.Sat (SectionAction remote noCall true) SessionStop (waitAndClose cfg w sw) := by
  unfold waitAndClose
  repeat' first
    | apply sat_bind
    | apply sat_emit
    | apply sat_pure
    | apply sat_stop
    | intro _ _
    | split
  all_goals simp [SectionAction, SessionStop, isConnectFailure]

/-! ## Computing traces -/

@[simp] theorem pure_trace {α : Type} (a : α) : (pure a : Prog α).trace = [] := rfl

@[simp] theorem pure_res {α : Type} (a : α) : (pure a : Prog α).res = Except.ok a := rfl

@[simp] theorem emit_trace (a : Action) : (emit a).trace = [a] := rfl

@[simp] theorem emit_res (a : Action) : (emit a).res = Except.ok () := rfl

@[simp] theorem stop_trace {α : Type} (s : Stop) : (stop s : Prog α).trace = [] := rfl

@[simp] theorem stop_res {α : Type} (s : Stop) : (stop s : Prog α).res = Except.error s := rfl

@[simp] theorem fatal_trace {α : Type} (msg : String) (err : Option String) :
    (fatal msg err : Prog α).trace = [] := rfl

@[simp] theorem fatal_res {α : Type} (msg : String) (err : Option String) :
    (fatal msg err : Prog α).res = Except.error (Stop.fatal msg err) := rfl

@[simp] theorem pure_bind_trace {α β : Type} (a : α) (f : α → Prog β) :
    ((pure a : Prog α) >>= f).trace = (f a).trace := rfl

@[simp] theorem pure_bind_res {α β : Type} (a : α) (f : α → Prog β) :
    ((pure a : Prog α) >>= f).res = (f a).res := rfl

@[simp] theorem emit_bind_trace {β : Type} (a : Action) (f : Unit → Prog β) :
    (emit a >>= f).trace = a :: (f ()).trace := rfl

@[simp] theorem emit_bind_res {β : Type} (a : Action) (f : Unit → Prog β) :
    (emit a >>= f).res = (f ()).res := rfl

theorem bind_trace_ok {α β : Type} (m : Prog α) (f : α → Prog β) (a : α)
    (h : m.res = Except.ok a) : (m >>= f).trace = m.trace ++ (f a).trace := by
  rw [bind_eq, andThen_ok m f a h]

theorem bind_res_ok {α β : Type} (m : Prog α) (f : α → Prog β) (a : α)
    (h : m.res = Except.ok a) : (m >>= f).res = (f a).res := by
  rw [bind_eq, andThen_ok m f a h]

theorem bind_trace_error {α β : Type} (m : Prog α) (f : α → Prog β) (e : Stop)
    (h : m.res = Except.error e) : (m >>= f).trace = m.trace := by
  rw [bind_eq, andThen_error m f e h]

theorem bind_res_error {α β : Type} (m : Prog α) (f : α → Prog β) (e : Stop)
    (h : m.res = Except.error e) : (m >>= f).res = Except.error e := by
  rw [bind_eq, andThen_error m f e h]

theorem mem_bind_left {α β : Type} (m : Prog α) (f : α → Prog β) (a : Action)
    (h : a ∈ m.trace) : a ∈ (m >>= f).trace := by
  cases hres : m.res with
  | ok x => rw [bind_trace_ok m f x hres]; exact List.mem_append_left _ h
  | error e => rw [bind_trace_error m f e hres]; exact h

/-! ## The connection loop -/

theorem connectLoop_succeeds (cfg : Flags) (w : World) :
    ∀ (n i k : Nat) (st : ConnState), k < n →
      (∀ j, j < k → (w.connect (i + j)).2 ≠ none) → (w.connect (i + k)).2 = none →
      (connectLoop cfg w n i st).res = Except.ok (w.connect (i + k)) ∧
      (connectLoop cfg w n i st).trace.countP isConnect = k + 1 ∧
      (connectLoop cfg w n i st).trace.countP isSleep = k + (if i = 0 then 0 else 1) ∧
      (connectLoop cfg w n i st).trace.countP isConnectFailure = k ∧
      (∀ a ∈ (connectLoop cfg w n i st).trace, isCall a = false) ∧
      (i = 0 → (connectLoop cfg w n i st).trace.head? =
        some (Action.connect cfg.port cfg.verbose)) := by
  intro n
  induction n with
  | zero => intro i k st hk; omega
  | succ n ih =>
    intro i k st hk hfail hok
    cases k with
    | zero =>
      simp only [Nat.add_zero] at hok
      by_cases hi : i = 0
      · subst hi
        simp [connectLoop, hok, isConnect, isSleep, isConnectFailure, isCall]
      · have hpos : i > 0 := Nat.pos_of_ne_zero hi
        simp [connectLoop, hok, hpos, hi, isConnect, isSleep, isConnectFailure, isCall]
    | succ k =>
      have h0 : (w.connect i).2 ≠ none := by simpa using hfail 0 (Nat.succ_pos k)
      obtain ⟨e, he⟩ := Option.ne_none_iff_exists'.mp h0
      have hrec := ih (i + 1) k (w.connect i) (by omega)
        (fun j hj => by
          have := hfail (j + 1) (by omega)
          rwa [show i + (j + 1) = i + 1 + j by omega] at this)
        (by rwa [show i + (k + 1) = i + 1 + k by omega] at hok)
      rw [show i + 1 + k = i + (k + 1) by omega] at hrec
      obtain ⟨h1, h2, h3, h4, h5, -⟩ := hrec
      by_cases hi : i = 0
      · subst hi
        simp [connectLoop, he, isConnect, isSleep, isConnectFailure, isCall] at h1 h2 h3 h4 h5 ⊢
        refine ⟨h1, h2, ?_, h4, h5⟩
        omega
      · have hpos : i > 0 := Nat.pos_of_ne_zero hi
        simp [connectLoop, he, hpos, hi, isConnect, isSleep, isConnectFailure, isCall]
          at h1 h2 h3 h4 h5 ⊢
        refine ⟨h1, h2, ?_, h4, h5⟩
        omega

/-! ## The whole session -/

theorem sessionStop_of_earlyStop (s : Stop) (h : EarlyStop s) : SessionStop s := by
  cases s with
  | fatal msg err => cases err <;> simp_all [EarlyStop, SessionStop]
  | panic what => simp [SessionStop]
  | blocked => simp [SessionStop]

theorem sectionAction_mono {remote : Remote} {al al2 : Call → Bool} {mr mr2 : Bool}
    (hal : ∀ c, al c = true → al2 c = true) (hmr : mr = true → mr2 = true) (a : Action)
    (h : SectionAction remote al mr a) : SectionAction remote al2 mr2 a := by
  cases a <;> simp_all [SectionAction]

theorem sat_setup (cfg : Flags) (w : World) (remote : Remote) :
    Prog.Sat (SectionAction remote
        (fun c => inInfo cfg c || inRegister c || inSelectTab c) false) EarlyStop
      (setup cfg w remote) := by
  unfold setup
  refine sat_bind ?_ (fun _ _ => sat_bind ?_ (fun _ _ => sat_bind ?_ (fun _ _ => sat_pure _)))
  · exact sat_mono (sat_showInfo cfg w remote)
      (sectionAction_mono (by intro c hc; simp [hc]) id) (fun _ h => h)
  · exact sat_mono (sat_registerHandlers cfg remote)
      (sectionAction_mono (by intro c hc; simp [hc]) id) (fun _ h => h)
  · exact sat_mono (sat_selectTab cfg w remote)
      (sectionAction_mono (by intro c hc; simp [hc]) id) (fun _ h => h)

theorem sat_operate (lib : Lib) (cfg : Flags) (w : World) (remote : Remote) (sw : Bool)
    (site : String) :
    Prog.Sat (SectionAction remote
        (fun c => isEnable c || isNavigate c || inOneShots c) true) SessionStop
      (operate lib cfg w remote sw site) := by
  unfold operate
  refine sat_bind ?_ (fun _ _ => sat_bind ?_ (fun _ _ => sat_bind ?_ (fun _ _ => ?_)))
  · exact sat_mono (sat_enableEvents cfg remote)
      (sectionAction_mono (by intro c hc; simp [hc]) (by simp)) (fun _ h => h)
  · exact sat_mono (sat_navigate w remote site)
      (sectionAction_mono (by intro c hc; simp [hc]) (by simp)) sessionStop_of_earlyStop
  · exact sat_mono (sat_oneShots lib cfg w remote sw)
      (sectionAction_mono (by intro c hc; simp [hc]) (by simp)) sessionStop_of_earlyStop
  · exact sat_mono (sat_waitAndClose cfg w _ remote)
      (sectionAction_mono (by intro c hc; simp [noCall] at hc) id) (fun _ h => h)

theorem sat_session (lib : Lib) (cfg : Flags) (w : World) (remote : Remote) :
    Prog.Sat (SectionAction remote (inSession cfg) true) SessionStop
      (session lib cfg w remote) := by
  unfold session
  refine sat_bind ?_ (fun _ _ => ?_)
  · exact sat_mono (sat_setup cfg w remote)
      (sectionAction_mono (by intro c hc; simp at hc; simp [inSession]; tauto) (by simp))
      sessionStop_of_earlyStop
  · exact sat_mono (sat_operate lib cfg w remote _ _)
      (sectionAction_mono (by intro c hc; simp at hc; simp [inSession]; tauto) id)
      (fun _ h => h)

theorem afterConnect_of_sectionAction {remote : Remote} {al : Call → Bool} {mr : Bool}
    (a : Action) (h : SectionAction remote al mr a) : AfterConnect remote a := by
  cases a <;> simp_all [SectionAction, AfterConnect, isConnect, isSleep, isConnectFailure]

theorem sat_withDefer {α : Type} {Q : Action → Prop} {S : Stop → Prop} {a : Action}
    {body : Prog α} (hb : Prog.Sat Q S body) (ha : Q a) : Prog.Sat Q S (withDefer a body) := by
  unfold withDefer
  split
  · refine ⟨?_, fun s hs => hb.2 s hs⟩
    intro x hx
    rcases List.mem_append.mp hx with h | h
    · exact hb.1 x h
    · simp at h; exact h ▸ ha
  · refine ⟨?_, fun s hs => hb.2 s hs⟩
    intro x hx
    rcases List.mem_append.mp hx with h | h
    · exact hb.1 x h
    · simp at h; exact h ▸ ha
  · exact hb

theorem sat_deferred_session (lib : Lib) (cfg : Flags) (w : World) (remote : Remote) :
    Prog.Sat (AfterConnect remote) SessionStop
      (withDefer (Action.call remote Call.Close) (session lib cfg w remote)) := by
  refine sat_withDefer (sat_mono (sat_session lib cfg w remote)
    (fun a h => afterConnect_of_sectionAction a h) (fun _ h => h)) ?_
  simp [AfterConnect, isConnect, isSleep, isConnectFailure]

theorem version_mem_session (lib : Lib) (cfg : Flags) (w : World) (remote : Remote) :
    Action.call remote Call.Version ∈
      (withDefer (Action.call remote Call.Close) (session lib cfg w remote)).trace := by
  have h : Action.call remote Call.Version ∈ (session lib cfg w remote).trace := by
    unfold session setup showInfo callOrFatal
    refine mem_bind_left _ _ _ (mem_bind_left _ _ _ (mem_bind_left _ _ _ ?_))
    simp
  unfold withDefer
  split
  · exact List.mem_append_left _ h
  · exact List.mem_append_left _ h
  · exact h

theorem sat_launch (lib : Lib) (cfg : Flags) (w : World) :
    Prog.Sat BeforeConnect (fun s => ∃ what, s = Stop.panic what) (launch lib cfg w) := by
  unfold launch runCommand
  repeat' first
    | apply sat_bind
    | apply sat_emit
    | apply sat_pure
    | apply sat_stop
    | intro _ _
    | split
  all_goals simp [BeforeConnect, isConnect, isSleep, isConnectFailure, isCall, isRecv]

theorem countP_eq_zero_of_forall {p : Action → Bool} {l : List Action}
    (h : ∀ a ∈ l, p a = false) : l.countP p = 0 := by
  rw [List.countP_eq_zero]
  intro a ha
  simp [h a ha]

/-! ## `main` once the connection is made -/

theorem main_connected (lib : Lib) (cfg : Flags) (w : World) (f : Nat) (hf : f < 10)
    (hfail : ∀ i, i < f → (w.connect i).2 ≠ none) (hok : (w.connect f).2 = none)
    (hlaunch : (launch lib cfg w).res = Except.ok ()) :
    (main lib cfg w).trace = (launch lib cfg w).trace ++
        ((connectLoop cfg w 10 0 (none, none)).trace ++
          (withDefer (Action.call (w.connect f).1 Call.Close)
            (session lib cfg w (w.connect f).1)).trace) ∧
      (main lib cfg w).res = (withDefer (Action.call (w.connect f).1 Call.Close)
            (session lib cfg w (w.connect f).1)).res := by
  have hloop := (connectLoop_succeeds cfg w 10 0 f (none, none) hf
    (by simpa using hfail) (by simpa using hok)).1
  simp only [Nat.zero_add] at hloop
  unfold main
  constructor
  · rw [bind_trace_ok _ _ _ hlaunch, bind_trace_ok _ _ _ hloop]
    simp [hok]
  · rw [bind_res_ok _ _ _ hlaunch, bind_res_ok _ _ _ hloop]
    simp [hok]

/-- C1: when the first `f < 10` calls of `godet.Connect` fail and call `f + 1`
succeeds, the run of `main` calls `Connect` exactly `f + 1` times, sleeps
exactly `f` times and not before the first attempt, logs exactly `f` failed
attempts, and goes on with the connection of attempt `f + 1`: `Version` is
called on it and every method call of the run is a call on it. -/
theorem connect_retries_until_success (lib : Lib) (cfg : Flags) (w : World) (f : Nat)
    (hf : f < 10) (hfail : ∀ i, i < f → (w.connect i).2 ≠ none)
    (hok : (w.connect f).2 = none) (hlaunch : (launch lib cfg w).res = Except.ok ()) :
    (main lib cfg w).trace.countP isConnect = f + 1 ∧
      (main lib cfg w).trace.countP isSleep = f ∧
      (main lib cfg w).trace.countP isConnectFailure = f ∧
      (∃ pre post, (main lib cfg w).trace =
          pre ++ Action.connect cfg.port cfg.verbose :: post ∧
          ∀ a ∈ pre, isSleep a = false ∧ isConnect a = false) ∧
      Action.call (w.connect f).1 Call.Version ∈ (main lib cfg w).trace ∧
      ∀ r c, Action.call r c ∈ (main lib cfg w).trace → r = (w.connect f).1 := by
  obtain ⟨htrace, -⟩ := main_connected lib cfg w f hf hfail hok hlaunch
  obtain ⟨-, hc, hs, hl, hcall, hhead⟩ := connectLoop_succeeds cfg w 10 0 f (none, none) hf
    (by simpa using hfail) (by simpa using hok)
  have hL := (sat_launch lib cfg w).1
  have hS := (sat_deferred_session lib cfg w (w.connect f).1).1
  have hL1 : (launch lib cfg w).trace.countP isConnect = 0 :=
    countP_eq_zero_of_forall (fun a ha => (hL a ha).1)
  have hL2 : (launch lib cfg w).trace.countP isSleep = 0 :=
    countP_eq_zero_of_forall (fun a ha => (hL a ha).2.1)
  have hL3 : (launch lib cfg w).trace.countP isConnectFailure = 0 :=
    countP_eq_zero_of_forall (fun a ha => (hL a ha).2.2.1)
  have hS1 := countP_eq_zero_of_forall (fun a ha => (hS a ha).1)
  have hS2 := countP_eq_zero_of_forall (fun a ha => (hS a ha).2.1)
  have hS3 := countP_eq_zero_of_forall (fun a ha => (hS a ha).2.2.1)
  rw [htrace]
  refine ⟨?_, ?_, ?_, ?_, ?_, ?_⟩
  · simp [List.countP_append, hL1, hS1, hc]
  · simp [List.countP_append, hL2, hS2, hs]
  · simp [List.countP_append, hL3, hS3, hl]
  · have hh := hhead rfl
    cases hloop : (connectLoop cfg w 10 0 (none, none)).trace with
    | nil => simp [hloop] at hh
    | cons x rest =>
      simp [hloop] at hh
      subst hh
      refine ⟨(launch lib cfg w).trace, rest ++ (withDefer (Action.call (w.connect f).1
        Call.Close) (session lib cfg w (w.connect f).1)).trace, by simp, ?_⟩
      intro a ha
      exact ⟨(hL a ha).2.1, (hL a ha).1⟩
  · exact List.mem_append_right _ (List.mem_append_right _ (version_mem_session lib cfg w _))
  · intro r c hmem
    rcases List.mem_append.mp hmem with h | h
    · have := (hL _ h).2.2.2.1
      simp [isCall] at this
    · rcases List.mem_append.mp h with h | h
      · have := hcall _ h
        simp [isCall] at this
      · exact (hS _ h).2.2.2 r c rfl

/-! ## The connection loop when every attempt fails -/

theorem connectLoop_exhausted (cfg : Flags) (w : World) :
    ∀ (n i : Nat) (st : ConnState), (∀ j, j ≤ n → (w.connect (i + j)).2 ≠ none) →
      (connectLoop cfg w (n + 1) i st).res = Except.ok (w.connect (i + n)) ∧
      (connectLoop cfg w (n + 1) i st).trace.countP isConnect = n + 1 ∧
      (connectLoop cfg w (n + 1) i st).trace.countP isSleep = n + (if i = 0 then 0 else 1) ∧
      (∀ a ∈ (connectLoop cfg w (n + 1) i st).trace, isCall a = false) := by
  intro n
  induction n with
  | zero =>
    intro i st hfail
    have h0 : (w.connect i).2 ≠ none := by simpa using hfail 0 (Nat.le_refl 0)
    obtain ⟨e, he⟩ := Option.ne_none_iff_exists'.mp h0
    by_cases hi : i = 0
    · subst hi
      simp [connectLoop, he, isConnect, isSleep, isCall]
    · have hpos : i > 0 := Nat.pos_of_ne_zero hi
      simp [connectLoop, he, hpos, hi, isConnect, isSleep, isCall]
  | succ n ih =>
    intro i st hfail
    have h0 : (w.connect i).2 ≠ none := by simpa using hfail 0 (Nat.zero_le _)
    obtain ⟨e, he⟩ := Option.ne_none_iff_exists'.mp h0
    have hrec := ih (i + 1) (w.connect i) (fun j hj => by
      have := hfail (j + 1) (by omega)
      rwa [show i + (j + 1) = i + 1 + j by omega] at this)
    rw [show i + 1 + n = i + (n + 1) by omega] at hrec
    obtain ⟨h1, h2, h3, h4⟩ := hrec
    by_cases hi : i = 0
    · subst hi
      simp [connectLoop, he, isConnect, isSleep, isCall] at h1 h2 h3 h4 ⊢
      refine ⟨h1, h2, ?_, h4⟩
      omega
    · have hpos : i > 0 := Nat.pos_of_ne_zero hi
      simp [connectLoop, he, hpos, hi, isConnect, isSleep, isCall] at h1 h2 h3 h4 ⊢
      refine ⟨h1, h2, ?_, h4⟩
      omega

theorem first_success (w : World) (h : ¬ ∀ i, i < 10 → (w.connect i).2 ≠ none) :
    ∃ f, f < 10 ∧ (∀ i, i < f → (w.connect i).2 ≠ none) ∧ (w.connect f).2 = none := by
  have hex : ∃ i, i < 10 ∧ (w.connect i).2 = none := by
    by_contra hne
    apply h
    intro i hi hnone
    exact hne ⟨i, hi, hnone⟩
  refine ⟨Nat.find hex, (Nat.find_spec hex).1, ?_, (Nat.find_spec hex).2⟩
  intro i hi hnone
  exact Nat.find_min hex hi ⟨Nat.lt_trans hi (Nat.find_spec hex).1, hnone⟩

theorem connect_exhaustion_helper (lib : Lib) (cfg : Flags) (w : World)
    (hlaunch : (launch lib cfg w).res = Except.ok ())
    (hall : ∀ i, i < 10 → (w.connect i).2 ≠ none) :
    (main lib cfg w).res = Except.error (Stop.fatal "cannot connect to browser" none) ∧
      (∀ a ∈ (main lib cfg w).trace, isCall a = false) ∧
      (main lib cfg w).trace.countP isConnect = 10 ∧
      (main lib cfg w).trace.countP isSleep = 9 := by
  have hL := sat_launch lib cfg w
  have hL1 : (launch lib cfg w).trace.countP isConnect = 0 :=
    countP_eq_zero_of_forall (fun a ha => (hL.1 a ha).1)
  have hL2 : (launch lib cfg w).trace.countP isSleep = 0 :=
    countP_eq_zero_of_forall (fun a ha => (hL.1 a ha).2.1)
  obtain ⟨h1, h2, h3, h4⟩ := connectLoop_exhausted cfg w 9 0 (none, none)
    (fun j hj => by simpa using hall j (by omega))
  have h9 : (w.connect 9).2 ≠ none := hall 9 (by decide)
  have htrace : (main lib cfg w).trace = (launch lib cfg w).trace ++
      (connectLoop cfg w 10 0 (none, none)).trace := by
    unfold main
    rw [bind_trace_ok _ _ _ hlaunch, bind_trace_ok _ _ _ h1]
    simp only [Nat.zero_add]
    rw [if_pos h9]
    simp
  refine ⟨?_, ?_, ?_, ?_⟩
  · unfold main
    rw [bind_res_ok _ _ _ hlaunch, bind_res_ok _ _ _ h1]
    simp only [Nat.zero_add]
    rw [if_pos h9]
    rfl
  · intro a ha
    rw [htrace] at ha
    rcases List.mem_append.mp ha with h | h
    · exact (hL.1 a h).2.2.2.1
    · exact h4 a h
  · rw [htrace]; simp [List.countP_append, hL1, h2]
  · rw [htrace]; simp [List.countP_append, hL2, h3]

theorem connected_run_is_not_connect_fatal (lib : Lib) (cfg : Flags) (w : World)
    (hlaunch : (launch lib cfg w).res = Except.ok ())
    (hsome : ¬ ∀ i, i < 10 → (w.connect i).2 ≠ none) :
    (main lib cfg w).res ≠
      Except.error (Stop.fatal "cannot connect to browser" none) := by
  obtain ⟨f, hf, hfail, hok⟩ := first_success w hsome
  obtain ⟨-, hres⟩ := main_connected lib cfg w f hf hfail hok hlaunch
  have hS := (sat_deferred_session lib cfg w (w.connect f).1).2
  intro hcontra
  rw [hres] at hcontra
  exact hS _ hcontra

/-- C9: in a run of `main` that gets to the connection loop (the browser
command did not panic), ten failing attempts of `godet.Connect` end the run
with the fatal error "cannot connect to browser", and nothing else does.  When
the ten attempts fail, `Connect` was called exactly 10 times, `Sleep` exactly
9 times, and no method of the protocol client was called. -/
theorem connect_exhaustion_is_the_fatal_case (lib : Lib) (cfg : Flags) (w : World)
    (hlaunch : (launch lib cfg w).res = Except.ok ()) :
    ((main lib cfg w).res = Except.error (Stop.fatal "cannot connect to browser" none) ↔
      ∀ i, i < 10 → (w.connect i).2 ≠ none) ∧
    ((∀ i, i < 10 → (w.connect i).2 ≠ none) →
      (main lib cfg w).res = Except.error (Stop.fatal "cannot connect to browser" none) ∧
      (main lib cfg w).trace.countP isConnect = 10 ∧
      (main lib cfg w).trace.countP isSleep = 9 ∧
      ∀ a ∈ (main lib cfg w).trace, isCall a = false) := by
  constructor
  · constructor
    · intro hfatal
      by_contra hsome
      exact connected_run_is_not_connect_fatal lib cfg w hlaunch hsome hfatal
    · intro hall
      exact (connect_exhaustion_helper lib cfg w hlaunch hall).1
  · intro hall
    obtain ⟨h1, h2, h3, h4⟩ := connect_exhaustion_helper lib cfg w hlaunch hall
    exact ⟨h1, h3, h4, h2⟩

/-! ## How the trace of `main` is put together -/

theorem withDefer_res {α : Type} (a : Action) (body : Prog α) :
    (withDefer a body).res = body.res := by
  unfold withDefer
  split <;> rfl

theorem withDefer_trace {α : Type} (a : Action) (body : Prog α) :
    ∃ tail, (withDefer a body).trace = body.trace ++ tail ∧ (tail = [] ∨ tail = [a]) ∧
      ((∃ x, body.res = Except.ok x) → tail = [a]) := by
  cases hres : body.res with
  | ok x => exact ⟨[a], by simp [withDefer, hres], Or.inr rfl, fun _ => rfl⟩
  | error e =>
    cases e with
    | panic what => exact ⟨[a], by simp [withDefer, hres], Or.inr rfl, fun _ => rfl⟩
    | fatal msg err =>
      exact ⟨[], by simp [withDefer, hres], Or.inl rfl, fun h => by simp at h⟩
    | blocked =>
      exact ⟨[], by simp [withDefer, hres], Or.inl rfl, fun h => by simp at h⟩

theorem withDefer_trace_ok {α : Type} (a : Action) (body : Prog α) (x : α)
    (h : body.res = Except.ok x) : (withDefer a body).trace = body.trace ++ [a] := by
  unfold withDefer
  simp [h]

theorem res_ok_of_sat {α : Type} {Q : Action → Prop} {m : Prog α}
    (h : Prog.Sat Q (fun _ => False) m) : ∃ a, m.res = Except.ok a := by
  cases hres : m.res with
  | ok a => exact ⟨a, rfl⟩
  | error e => exact (h.2 e hres).elim

theorem registerHandlers_res (cfg : Flags) (remote : Remote) :
    (registerHandlers cfg remote).res = Except.ok () := by
  obtain ⟨a, ha⟩ := res_ok_of_sat (sat_registerHandlers cfg remote)
  exact ha

theorem enableEvents_trace (cfg : Flags) (remote : Remote) :
    (enableEvents cfg remote).trace = enableCalls cfg remote := by
  unfold enableEvents enableCalls
  split <;> rfl

theorem enableEvents_res (cfg : Flags) (remote : Remote) :
    (enableEvents cfg remote).res = Except.ok () := by
  unfold enableEvents
  split <;> rfl

theorem callIs_of_sectionAction {remote : Remote} {al : Call → Bool} {mr : Bool}
    {p : Call → Bool} (hp : ∀ c, al c = true → p c = false) (a : Action)
    (h : SectionAction remote al mr a) : callIs p a = false := by
  cases a <;> simp_all [SectionAction, callIs]

theorem callIs_of_not_isCall {p : Call → Bool} (a : Action) (h : isCall a = false) :
    callIs p a = false := by
  cases a <;> simp_all [isCall, callIs]

/-- Either `main` stops before it holds a connection, having called no method
of the client, or its trace is such a prefix followed by the session on the
connection it obtained. -/
theorem main_cases (lib : Lib) (cfg : Flags) (w : World) :
    ((∀ a ∈ (main lib cfg w).trace, isCall a = false) ∧
      ∃ s, (main lib cfg w).res = Except.error s) ∨
    ∃ remote t0, (∀ a ∈ t0, isCall a = false) ∧
      (main lib cfg w).trace = t0 ++ (withDefer (Action.call remote Call.Close)
        (session lib cfg w remote)).trace ∧
      (main lib cfg w).res = (session lib cfg w remote).res := by
  have hL := sat_launch lib cfg w
  cases hlaunch : (launch lib cfg w).res with
  | error e =>
    left
    have hres : (main lib cfg w).res = Except.error e := by
      unfold main; exact bind_res_error _ _ e hlaunch
    have htrace : (main lib cfg w).trace = (launch lib cfg w).trace := by
      unfold main; exact bind_trace_error _ _ e hlaunch
    rw [htrace]
    exact ⟨fun a ha => (hL.1 a ha).2.2.2.1, e, hres⟩
  | ok u =>
    by_cases hall : ∀ i, i < 10 → (w.connect i).2 ≠ none
    · left
      have h := (connect_exhaustion_helper lib cfg w hlaunch hall)
      exact ⟨h.2.1, _, h.1⟩
    · right
      obtain ⟨f, hf, hfail, hok⟩ := first_success w hall
      obtain ⟨htrace, hres⟩ := main_connected lib cfg w f hf hfail hok hlaunch
      obtain ⟨-, -, -, -, hcall, -⟩ := connectLoop_succeeds cfg w 10 0 f (none, none) hf
        (by simpa using hfail) (by simpa using hok)
      refine ⟨(w.connect f).1, (launch lib cfg w).trace ++
        (connectLoop cfg w 10 0 (none, none)).trace, ?_, ?_, ?_⟩
      · intro a ha
        rcases List.mem_append.mp ha with h | h
        · exact (hL.1 a h).2.2.2.1
        · exact hcall a h
      · rw [htrace, List.append_assoc]
      · rw [hres, withDefer_res]

/-! ## Events are enabled between the tab selection and the navigation -/

theorem operate_split (lib : Lib) (cfg : Flags) (w : World) (remote : Remote) (sw : Bool)
    (site : String) :
    ∃ rest : Prog Unit,
      (operate lib cfg w remote sw site).trace = enableCalls cfg remote ++ rest.trace ∧
      (operate lib cfg w remote sw site).res = rest.res ∧
      Prog.Sat (SectionAction remote (fun c => isNavigate c || inOneShots c) true)
        SessionStop rest := by
  refine ⟨navigate w remote site >>= fun _ =>
    oneShots lib cfg w remote sw >>= fun w1 => waitAndClose cfg w w1, ?_, ?_, ?_⟩
  · unfold operate
    rw [bind_trace_ok _ _ _ (enableEvents_res cfg remote), enableEvents_trace]
  · unfold operate
    rw [bind_res_ok _ _ _ (enableEvents_res cfg remote)]
  · refine sat_bind ?_ (fun _ _ => sat_bind ?_ (fun _ _ => ?_))
    · exact sat_mono (sat_navigate w remote site)
        (sectionAction_mono (by intro c hc; simp [hc]) (by simp)) sessionStop_of_earlyStop
    · exact sat_mono (sat_oneShots lib cfg w remote sw)
        (sectionAction_mono (by intro c hc; simp [hc]) (by simp)) sessionStop_of_earlyStop
    · exact sat_mono (sat_waitAndClose cfg w _ remote)
        (sectionAction_mono (by intro c hc; simp [noCall] at hc) id) (fun _ h => h)

theorem setup_quiet (cfg : Flags) (w : World) (remote : Remote) :
    ∀ a ∈ (setup cfg w remote).trace,
      callIs isEnable a = false ∧ callIs isNavigate a = false := by
  intro a ha
  have h := (sat_setup cfg w remote).1 a ha
  constructor
  · refine callIs_of_sectionAction ?_ a h
    intro c hc
    cases c <;> simp_all [inInfo, inRegister, inSelectTab, isTabChoice, isEnable]
  · refine callIs_of_sectionAction ?_ a h
    intro c hc
    cases c <;> simp_all [inInfo, inRegister, inSelectTab, isTabChoice, isNavigate]

/-- C10: in every run of `main`, either the run stops before line 333 and
then has enabled no events and navigated nowhere, or its trace is
`pre ++ enableCalls ++ post` where the enabling calls are `AllEvents(true)`
alone under `-all-events` and otherwise the five per-domain calls in the
order of the source, `pre` holds no enabling call and no `Navigate`, and
`post` holds no enabling call, no `NewTab` and no `ActivateTab`.  A run that
returns is of the second kind. -/
theorem events_enabled_after_tab_before_navigation (lib : Lib) (cfg : Flags) (w : World) :
    ((∃ s, (main lib cfg w).res = Except.error s) ∧
      ∀ a ∈ (main lib cfg w).trace,
        callIs isEnable a = false ∧ callIs isNavigate a = false) ∨
    ∃ remote pre post, (main lib cfg w).trace = pre ++ enableCalls cfg remote ++ post ∧
      (∀ a ∈ pre, callIs isEnable a = false ∧ callIs isNavigate a = false) ∧
      (∀ a ∈ post, callIs isEnable a = false ∧ callIs isTabChoice a = false) := by
  rcases main_cases lib cfg w with ⟨hcalls, hstop⟩ | ⟨remote, t0, ht0, htrace, hres⟩
  · left
    exact ⟨hstop, fun a ha =>
      ⟨callIs_of_not_isCall a (hcalls a ha), callIs_of_not_isCall a (hcalls a ha)⟩⟩
  · obtain ⟨tail, htail, htl, htlok⟩ := withDefer_trace (Action.call remote Call.Close)
      (session lib cfg w remote)
    have hclose : ∀ a ∈ tail, callIs isEnable a = false ∧ callIs isTabChoice a = false ∧
        callIs isNavigate a = false := by
      intro a ha
      rcases htl with h | h
      · simp [h] at ha
      · simp [h] at ha
        subst ha
        simp [callIs, isEnable, isTabChoice, isNavigate]
    cases hsetup : (setup cfg w remote).res with
    | error e =>
      left
      have hs : (session lib cfg w remote).trace = (setup cfg w remote).trace := by
        unfold session; exact bind_trace_error _ _ e hsetup
      have hr : (session lib cfg w remote).res = Except.error e := by
        unfold session; exact bind_res_error _ _ e hsetup
      refine ⟨⟨e, by rw [hres, hr]⟩, ?_⟩
      intro a ha
      rw [htrace, htail, hs] at ha
      rcases List.mem_append.mp ha with h | h
      · exact ⟨callIs_of_not_isCall a (ht0 a h), callIs_of_not_isCall a (ht0 a h)⟩
      · rcases List.mem_append.mp h with h | h
        · exact setup_quiet cfg w remote a h
        · exact ⟨(hclose a h).1, (hclose a h).2.2⟩
    | ok p =>
      right
      obtain ⟨rest, hpost, -, hsat⟩ := operate_split lib cfg w remote p.1 p.2
      have hs : (session lib cfg w remote).trace =
          (setup cfg w remote).trace ++ (operate lib cfg w remote p.1 p.2).trace := by
        unfold session; exact bind_trace_ok _ _ _ hsetup
      refine ⟨remote, t0 ++ (setup cfg w remote).trace, rest.trace ++ tail, ?_, ?_, ?_⟩
      · rw [htrace, htail, hs, hpost]
        simp [List.append_assoc]
      · intro a ha
        rcases List.mem_append.mp ha with h | h
        · exact ⟨callIs_of_not_isCall a (ht0 a h), callIs_of_not_isCall a (ht0 a h)⟩
        · exact setup_quiet cfg w remote a h
      · intro a ha
        rcases List.mem_append.mp ha with h | h
        · have hq := hsat.1 a h
          constructor
          · refine callIs_of_sectionAction ?_ a hq
            intro c hc
            cases c <;> simp_all [isNavigate, inOneShots, isEnable]
          · refine callIs_of_sectionAction ?_ a hq
            intro c hc
            cases c <;> simp_all [isNavigate, inOneShots, isTabChoice]
        · exact ⟨(hclose a h).1, (hclose a h).2.1⟩

/-! ## The new-tab path of the tab selection -/

theorem sat_operate_no_site (lib : Lib) (cfg : Flags) (w : World) (remote : Remote)
    (sw : Bool) :
    Prog.Sat (SectionAction remote (fun c => isEnable c || inOneShots c) true) SessionStop
      (operate lib cfg w remote sw "") := by
  unfold operate
  refine sat_bind ?_ (fun _ _ => sat_bind ?_ (fun _ _ => sat_bind ?_ (fun _ _ => ?_)))
  · exact sat_mono (sat_enableEvents cfg remote)
      (sectionAction_mono (by intro c hc; simp [hc]) (by simp)) (fun _ h => h)
  · have h : navigate w remote "" = pure () := by simp [navigate]
    rw [h]
    exact sat_pure _
  · exact sat_mono (sat_oneShots lib cfg w remote sw)
      (sectionAction_mono (by intro c hc; simp [hc]) (by simp)) sessionStop_of_earlyStop
  · exact sat_mono (sat_waitAndClose cfg w _ remote)
      (sectionAction_mono (by intro c hc; simp [noCall] at hc) id) (fun _ h => h)

theorem selectTab_new (cfg : Flags) (w : World) (remote : Remote) (site : String)
    (rest : List String) (hargs : cfg.args = site :: rest) (tabs : List Tab)
    (htabs : w.TabListPage = Except.ok tabs) (hnew : tabs = [] ∨ cfg.newtab = true) :
    (selectTab cfg w remote).trace =
        [Action.call remote (Call.TabList "page"), Action.call remote (Call.NewTab site)] ∧
      ((selectTab cfg w remote).res = Except.ok "" ∨
        ∃ e, (selectTab cfg w remote).res = Except.error e) := by
  cases hn : w.NewTab site with
  | none =>
    simp [selectTab, hargs, callOrFatal, htabs, hnew, fatalIf, hn, bind_eq, Prog.andThen,
      emit, pure_eq]
  | some e =>
    simp [selectTab, hargs, callOrFatal, htabs, hnew, fatalIf, hn, bind_eq, Prog.andThen,
      emit, pure_eq, fatal, stop]

theorem noTabMove_of_sectionAction {remote : Remote} {al : Call → Bool} {mr : Bool}
    (hal : ∀ c, al c = true →
      isNewTab c = false ∧ isActivateTab c = false ∧ isNavigate c = false)
    (a : Action) (h : SectionAction remote al mr a) : NoTabMove a :=
  ⟨callIs_of_sectionAction (fun c hc => (hal c hc).1) a h,
    callIs_of_sectionAction (fun c hc => (hal c hc).2.1) a h,
    callIs_of_sectionAction (fun c hc => (hal c hc).2.2) a h⟩

theorem session_new_tab (lib : Lib) (cfg : Flags) (w : World) (remote : Remote)
    (site : String) (rest : List String) (hargs : cfg.args = site :: rest) (tabs : List Tab)
    (htabs : w.TabListPage = Except.ok tabs) (hnew : tabs = [] ∨ cfg.newtab = true)
    (sw : Bool) (hinfo : (showInfo cfg w remote).res = Except.ok sw) :
    ∃ pre more, (session lib cfg w remote).trace =
        pre ++ [Action.call remote (Call.TabList "page"),
          Action.call remote (Call.NewTab site)] ++ more ∧
      (∀ a ∈ pre, NoTabMove a) ∧ ∀ a ∈ more, NoTabMove a := by
  obtain ⟨hsel, hselres⟩ := selectTab_new cfg w remote site rest hargs tabs htabs hnew
  have hpre : ∀ a ∈ (showInfo cfg w remote).trace ++ (registerHandlers cfg remote).trace,
      NoTabMove a := by
    intro a ha
    rcases List.mem_append.mp ha with h | h
    · refine noTabMove_of_sectionAction ?_ a ((sat_showInfo cfg w remote).1 a h)
      intro c hc
      cases c <;> simp_all [inInfo, isNewTab, isActivateTab, isNavigate]
    · refine noTabMove_of_sectionAction ?_ a
        ((sat_registerHandlers (S := SessionStop) cfg remote).1 a h)
      intro c hc
      cases c <;> simp_all [inRegister, isNewTab, isActivateTab, isNavigate]
  rcases hselres with hok | ⟨e, herr⟩
  · have hsetup : (setup cfg w remote).res = Except.ok (sw, "") := by
      unfold setup
      rw [bind_res_ok _ _ _ hinfo, bind_res_ok _ _ _ (registerHandlers_res cfg remote),
        bind_res_ok _ _ _ hok]
      rfl
    have hst : (setup cfg w remote).trace = (showInfo cfg w remote).trace ++
        ((registerHandlers cfg remote).trace ++ (selectTab cfg w remote).trace) := by
      unfold setup
      rw [bind_trace_ok _ _ _ hinfo, bind_trace_ok _ _ _ (registerHandlers_res cfg remote),
        bind_trace_ok _ _ _ hok]
      simp
    refine ⟨(showInfo cfg w remote).trace ++ (registerHandlers cfg remote).trace,
      (operate lib cfg w remote sw "").trace, ?_, hpre, ?_⟩
    · unfold session
      rw [bind_trace_ok _ _ _ hsetup, hst, hsel]
      simp [List.append_assoc]
    · intro a ha
      refine noTabMove_of_sectionAction ?_ a ((sat_operate_no_site lib cfg w remote sw).1 a ha)
      intro c hc
      cases c <;> simp_all [isEnable, inOneShots, isNewTab, isActivateTab, isNavigate]
  · have hsetup : (setup cfg w remote).res = Except.error e := by
      unfold setup
      rw [bind_res_ok _ _ _ hinfo, bind_res_ok _ _ _ (registerHandlers_res cfg remote),
        bind_res_error _ _ _ herr]
    have hst : (setup cfg w remote).trace = (showInfo cfg w remote).trace ++
        ((registerHandlers cfg remote).trace ++ (selectTab cfg w remote).trace) := by
      unfold setup
      rw [bind_trace_ok _ _ _ hinfo, bind_trace_ok _ _ _ (registerHandlers_res cfg remote),
        bind_trace_error _ _ _ herr]
    refine ⟨(showInfo cfg w remote).trace ++ (registerHandlers cfg remote).trace, [], ?_,
      hpre, by simp⟩
    unfold session
    rw [bind_trace_error _ _ _ hsetup, hst, hsel]
    simp [List.append_assoc]

/-- C5: in a run of `main` with a positional target URL `site` that reaches
the tab selection and gets a tab list that is empty, or with `-new` set,
`NewTab` is called exactly once, with `site`, and the run calls neither
`ActivateTab` nor `Navigate`. -/
theorem new_tab_path_needs_no_navigate (lib : Lib) (cfg : Flags) (w : World) (remote : Remote)
    (site : String) (rest : List String) (hargs : cfg.args = site :: rest) (tabs : List Tab)
    (htabs : w.TabListPage = Except.ok tabs) (hnew : tabs = [] ∨ cfg.newtab = true)
    (hreach : ReachesSelection lib cfg w remote) :
    (main lib cfg w).trace.countP (callIs isNewTab) = 1 ∧
      Action.call remote (Call.NewTab site) ∈ (main lib cfg w).trace ∧
      ∀ a ∈ (main lib cfg w).trace,
        callIs isActivateTab a = false ∧ callIs isNavigate a = false := by
  obtain ⟨hlaunch, ⟨f, hf, hfail, hconn⟩, sw, hinfo⟩ := hreach
  have hok : (w.connect f).2 = none := by rw [hconn]
  have hrem : (w.connect f).1 = remote := by rw [hconn]
  obtain ⟨htrace, -⟩ := main_connected lib cfg w f hf hfail hok hlaunch
  rw [hrem] at htrace
  obtain ⟨-, -, -, -, hcall, -⟩ := connectLoop_succeeds cfg w 10 0 f (none, none) hf
    (by simpa using hfail) (by simpa using hok)
  have hL := (sat_launch lib cfg w).1
  obtain ⟨tail, htail, htl, htlok⟩ := withDefer_trace (Action.call remote Call.Close)
    (session lib cfg w remote)
  obtain ⟨pre, more, hsess, hpre, hmore⟩ := session_new_tab lib cfg w remote site rest hargs
    tabs htabs hnew sw hinfo
  have h0 : ∀ a ∈ (launch lib cfg w).trace ++ ((connectLoop cfg w 10 0 (none, none)).trace ++
      pre), NoTabMove a := by
    intro a ha
    rcases List.mem_append.mp ha with h | h
    · exact ⟨callIs_of_not_isCall a (hL a h).2.2.2.1, callIs_of_not_isCall a (hL a h).2.2.2.1,
        callIs_of_not_isCall a (hL a h).2.2.2.1⟩
    · rcases List.mem_append.mp h with h | h
      · exact ⟨callIs_of_not_isCall a (hcall a h), callIs_of_not_isCall a (hcall a h),
          callIs_of_not_isCall a (hcall a h)⟩
      · exact hpre a h
  have h1 : ∀ a ∈ more ++ tail, NoTabMove a := by
    intro a ha
    rcases List.mem_append.mp ha with h | h
    · exact hmore a h
    · rcases htl with h2 | h2
      · simp [h2] at h
      · simp [h2] at h
        subst h
        simp [NoTabMove, callIs, isNewTab, isActivateTab, isNavigate]
  have hshape : (main lib cfg w).trace =
      ((launch lib cfg w).trace ++ ((connectLoop cfg w 10 0 (none, none)).trace ++ pre)) ++
        ([Action.call remote (Call.TabList "page"), Action.call remote (Call.NewTab site)] ++
          (more ++ tail)) := by
    rw [htrace, htail, hsess]
    simp [List.append_assoc]
  rw [hshape]
  refine ⟨?_, ?_, ?_⟩
  · have hA := countP_eq_zero_of_forall (p := callIs isNewTab) (fun a ha => (h0 a ha).1)
    have hB := countP_eq_zero_of_forall (p := callIs isNewTab) (fun a ha => (h1 a ha).1)
    rw [List.countP_append, hA, List.countP_append, hB]
    simp [callIs, isNewTab]
  · simp
  · intro a ha
    rcases List.mem_append.mp ha with h | h
    · exact (h0 a h).2
    · rcases List.mem_append.mp h with h | h
      · simp at h
        rcases h with h | h <;> subst h <;> simp [callIs, isActivateTab, isNavigate]
      · exact (h1 a h).2

/-! ## Runs that get to the end of `main` -/

theorem bind_ends {α β : Type} {Q : Action → Prop} {S : Stop → Prop} {m : Prog α}
    {f : α → Prog β} (hm : Prog.Sat Q S m) (hS : ¬ S Stop.blocked) (h : (m >>= f).Ends) :
    ∃ a, m.res = Except.ok a ∧ (m >>= f).trace = m.trace ++ (f a).trace ∧
      (m >>= f).res = (f a).res ∧ (f a).Ends := by
  cases hres : m.res with
  | error e =>
    have h1 := h e (bind_res_error m f e hres)
    subst h1
    exact absurd (hm.2 _ hres) hS
  | ok a =>
    refine ⟨a, rfl, bind_trace_ok m f a hres, bind_res_ok m f a hres, ?_⟩
    intro s hs
    exact h s (by rw [bind_res_ok m f a hres]; exact hs)

theorem sat_connectLoop (cfg : Flags) (w : World) :
    ∀ (n i : Nat) (st : ConnState),
      Prog.Sat LoopAction (fun _ => False) (connectLoop cfg w n i st) := by
  intro n
  induction n with
  | zero => intro i st; exact sat_pure _
  | succ n ih =>
    intro i st
    unfold connectLoop
    repeat' first
      | apply ih
      | apply sat_bind
      | apply sat_emit
      | apply sat_pure
      | intro _ _
      | split
    all_goals simp [LoopAction]

theorem not_earlyStop_blocked : ¬ EarlyStop Stop.blocked := by
  simp [EarlyStop]

theorem operate_ends (lib : Lib) (cfg : Flags) (w : World) (remote : Remote) (sw : Bool)
    (site : String) (h : (operate lib cfg w remote sw site).Ends) :
    ∃ w1, (operate lib cfg w remote sw site).trace = (enableEvents cfg remote).trace ++
        ((navigate w remote site).trace ++ ((oneShots lib cfg w remote sw).trace ++
          (waitAndClose cfg w w1).trace)) ∧
      (navigate w remote site).res = Except.ok () ∧
      (oneShots lib cfg w remote sw).res = Except.ok w1 ∧
      (operate lib cfg w remote sw site).res = (waitAndClose cfg w w1).res := by
  unfold operate at h ⊢
  obtain ⟨u5, -, ht5, hr5, h5⟩ := bind_ends (sat_enableEvents (S := EarlyStop) cfg remote)
    not_earlyStop_blocked h
  obtain ⟨u6, hnav, ht6, hr6, h6⟩ := bind_ends (sat_navigate w remote site)
    not_earlyStop_blocked h5
  obtain ⟨w1, hone, ht7, hr7, -⟩ := bind_ends (sat_oneShots lib cfg w remote sw)
    not_earlyStop_blocked h6
  exact ⟨w1, by rw [ht5, ht6, ht7], hnav, hone, by rw [hr5, hr6, hr7]⟩

theorem session_ends (lib : Lib) (cfg : Flags) (w : World) (remote : Remote)
    (h : (session lib cfg w remote).Ends) :
    ∃ sw site w1, (session lib cfg w remote).trace = (setup cfg w remote).trace ++
        ((enableEvents cfg remote).trace ++
          ((navigate w remote site).trace ++ ((oneShots lib cfg w remote sw).trace ++
            (waitAndClose cfg w w1).trace))) ∧
      (setup cfg w remote).res = Except.ok (sw, site) ∧
      (navigate w remote site).res = Except.ok () ∧
      (oneShots lib cfg w remote sw).res = Except.ok w1 ∧
      (session lib cfg w remote).res = (waitAndClose cfg w w1).res := by
  unfold session at h ⊢
  obtain ⟨p, hp, ht4, hr4, h4⟩ := bind_ends (sat_setup cfg w remote) not_earlyStop_blocked h
  obtain ⟨w1, ht, hnav, hone, hr⟩ := operate_ends lib cfg w remote p.1 p.2 h4
  exact ⟨p.1, p.2, w1, by rw [ht4, ht], hp, hnav, hone, by rw [hr4, hr]⟩

/-- A run that gets to the end of `main` went through every section: its trace
is the concatenation of their traces, in the order of the source. -/
theorem main_ends (lib : Lib) (cfg : Flags) (w : World) (h : (main lib cfg w).Ends) :
    ∃ remote sw site w1 tail,
      (main lib cfg w).trace = (launch lib cfg w).trace ++
        ((connectLoop cfg w 10 0 (none, none)).trace ++
          ((setup cfg w remote).trace ++ ((enableEvents cfg remote).trace ++
            ((navigate w remote site).trace ++ ((oneShots lib cfg w remote sw).trace ++
              ((waitAndClose cfg w w1).trace ++ tail)))))) ∧
      (tail = [] ∨ tail = [Action.call remote Call.Close]) ∧
      (setup cfg w remote).res = Except.ok (sw, site) ∧
      (navigate w remote site).res = Except.ok () ∧
      (oneShots lib cfg w remote sw).res = Except.ok w1 ∧
      (main lib cfg w).res = (waitAndClose cfg w w1).res ∧
      ((main lib cfg w).res = Except.ok () → tail = [Action.call remote Call.Close]) := by
  unfold main at h ⊢
  obtain ⟨u, -, ht1, hr1, h1⟩ := bind_ends (sat_launch lib cfg w) (by simp) h
  obtain ⟨st, -, ht2, hr2, h2⟩ := bind_ends (sat_connectLoop cfg w 10 0 (none, none))
    (by simp) h1
  have hst : st.2 = none := by
    by_contra hne
    have hfatal := h2 (Stop.fatal "cannot connect to browser" none) (by
      rw [if_pos hne]
      exact fatal_res "cannot connect to browser" none)
    simp at hfatal
  have hnot : ¬ st.2 ≠ none := by simp [hst]
  rw [if_neg hnot] at h2 ht2 hr2
  have h3 : (session lib cfg w st.1).Ends := by
    intro s hs
    exact h2 s (by rw [withDefer_res]; exact hs)
  obtain ⟨tail, htail, htl, htlok⟩ := withDefer_trace (Action.call st.1 Call.Close)
    (session lib cfg w st.1)
  obtain ⟨sw, site, w1, hts, hp, hnav, hone, hrs⟩ := session_ends lib cfg w st.1 h3
  refine ⟨st.1, sw, site, w1, tail, ?_, htl, hp, hnav, hone, ?_, ?_⟩
  · rw [ht1, ht2, htail, hts]
    simp [List.append_assoc]
  · rw [hr1, hr2, withDefer_res, hrs]
  · intro hok
    rw [hr1, hr2, withDefer_res] at hok
    exact htlok ⟨(), hok⟩

/-! ## The decision to wait -/

theorem bind_res_ok_inv {α β : Type} {m : Prog α} {f : α → Prog β} {b : β}
    (h : (m >>= f).res = Except.ok b) : ∃ a, m.res = Except.ok a ∧ (f a).res = Except.ok b := by
  cases hres : m.res with
  | error e => rw [bind_res_error m f e hres] at h; simp at h
  | ok a => exact ⟨a, rfl, by rw [bind_res_ok m f a hres] at h; exact h⟩

theorem stage_res (c : Prop) [Decidable c] (op : Prog Unit) (sw v : Bool)
    (h : (if c then (op >>= fun _ => pure false) else pure sw : Prog Bool).res = Except.ok v) :
    (c ∧ v = false ∧ op.res = Except.ok ()) ∨ (¬ c ∧ v = sw) := by
  by_cases hc : c
  · left
    rw [if_pos hc] at h
    obtain ⟨u, hu, hv⟩ := bind_res_ok_inv h
    simp at hv
    exact ⟨hc, hv, hu⟩
  · right
    rw [if_neg hc] at h
    simp at h
    exact ⟨hc, h.symm⟩

/-- What `should_wait` is after the one-shot operations: cleared as soon as
one of them was requested, unchanged otherwise. -/
theorem oneShots_res (lib : Lib) (cfg : Flags) (w : World) (remote : Remote) (sw w1 : Bool)
    (h : (oneShots lib cfg w remote sw).res = Except.ok w1) :
    ((cfg.query ≠ "" ∨ cfg.eval ≠ "" ∨ cfg.setHtml ≠ "" ∨ cfg.html = true) → w1 = false) ∧
    (¬ (cfg.query ≠ "" ∨ cfg.eval ≠ "" ∨ cfg.setHtml ≠ "" ∨ cfg.html = true) → w1 = sw) ∧
    (cfg.query ≠ "" → (doQuery lib cfg w remote).res = Except.ok ()) := by
  unfold oneShots at h
  obtain ⟨a1, h1, h⟩ := bind_res_ok_inv h
  obtain ⟨a2, h2, h⟩ := bind_res_ok_inv h
  obtain ⟨a3, h3, h4⟩ := bind_res_ok_inv h
  have s1 := stage_res _ _ _ _ h1
  have s2 := stage_res _ _ _ _ h2
  have s3 := stage_res _ _ _ _ h3
  have s4 := stage_res _ _ _ _ h4
  refine ⟨?_, ?_, ?_⟩
  · intro hreq
    rcases s4 with ⟨-, hv, -⟩ | ⟨hc4, hv4⟩
    · exact hv
    · rcases s3 with ⟨-, hv, -⟩ | ⟨hc3, hv3⟩
      · rw [hv4, hv]
      · rcases s2 with ⟨-, hv, -⟩ | ⟨hc2, hv2⟩
        · rw [hv4, hv3, hv]
        · rcases s1 with ⟨-, hv, -⟩ | ⟨hc1, hv1⟩
          · rw [hv4, hv3, hv2, hv]
          · tauto
  · intro hnone
    rcases s4 with ⟨hc, -, -⟩ | ⟨hc4, hv4⟩
    · tauto
    · rcases s3 with ⟨hc, -, -⟩ | ⟨hc3, hv3⟩
      · tauto
      · rcases s2 with ⟨hc, -, -⟩ | ⟨hc2, hv2⟩
        · tauto
        · rcases s1 with ⟨hc, -, -⟩ | ⟨hc1, hv1⟩
          · tauto
          · rw [hv4, hv3, hv2, hv1]
  · intro hq
    rcases s1 with ⟨-, -, hv⟩ | ⟨hc1, -⟩
    · exact hv
    · exact absurd hq hc1

theorem recv_mem_waitAndClose (cfg : Flags) (w : World) (sw : Bool) :
    Action.recv ∈ (waitAndClose cfg w sw).trace ↔ (cfg.wait || sw) = true := by
  unfold waitAndClose
  by_cases hc : (cfg.wait || sw) = true
  · cases hd : w.doneSent <;>
      simp [hc, hd, bind_eq, Prog.andThen, emit, pure_eq, stop]
  · simp [hc, bind_eq, Prog.andThen, emit, pure_eq]

theorem callOrFatal_res_ok {α : Type} {remote : Remote} {c : Call} {result : Except String α}
    {msg : String} {v : α} (h : (callOrFatal remote c result msg).res = Except.ok v) :
    result = Except.ok v := by
  unfold callOrFatal at h
  cases result with
  | ok x => simpa using h
  | error e => simp [fatal] at h

theorem sat_documentNode_noResolve (lib : Lib) (w : World) (s : Site) (remote : Remote)
    (verbose : Bool) :
    Prog.Sat (SectionAction remote inOneShotsNoResolve false) EarlyStop
      (documentNode lib w s remote verbose) := by
  refine sat_mono (Q := fun a => SectionAction remote inOneShots false a ∧
    callIs isResolveNode a = false) ?_ ?_ (fun _ h => h)
  · unfold documentNode
    repeat' first
      | apply sat_callOrFatal
      | apply sat_bind
      | apply sat_emit
      | apply sat_pure
      | intro _ _
      | split
    all_goals simp [SectionAction, inOneShots, callIs, isResolveNode]
  · intro a ha
    cases a <;> simp_all [SectionAction, inOneShotsNoResolve, callIs]

theorem sat_doQuery_none (lib : Lib) (cfg : Flags) (w : World) (remote : Remote)
    (hq : ∀ id, w.QuerySelector Site.query id cfg.query = Except.ok none) :
    Prog.Sat (SectionAction remote inOneShotsNoResolve false) EarlyStop
      (doQuery lib cfg w remote) := by
  unfold doQuery
  refine sat_bind (sat_documentNode_noResolve lib w Site.query remote cfg.verbose)
    (fun id _ => sat_bind (sat_callOrFatal _ _ _ _ ?_) (fun res hres => ?_))
  · simp [SectionAction, inOneShotsNoResolve, inOneShots, isResolveNode]
  · have hnone : res = none := by
      have := callOrFatal_res_ok hres
      rw [hq id] at this
      simpa using this.symm
    subst hnone
    exact sat_emit (by simp [SectionAction, isConnectFailure])

theorem sat_oneShots_noResolve (lib : Lib) (cfg : Flags) (w : World) (remote : Remote)
    (sw : Bool) (hq : ∀ id, w.QuerySelector Site.query id cfg.query = Except.ok none) :
    Prog.Sat (SectionAction remote inOneShotsNoResolve false) EarlyStop
      (oneShots lib cfg w remote sw) := by
  unfold oneShots doEval doSetHtml doHtml
  repeat' first
    | apply sat_doQuery_none lib cfg w remote hq
    | apply sat_callOrFatal
    | apply sat_fatalIf
    | apply sat_documentNode_noResolve
    | apply sat_assertFloat64
    | apply sat_bind
    | apply sat_emit
    | apply sat_pure
    | intro _ _
    | split
  all_goals simp [SectionAction, inOneShotsNoResolve, inOneShots, isResolveNode,
    isConnectFailure]

theorem doQuery_logs_no_result (lib : Lib) (cfg : Flags) (w : World) (remote : Remote)
    (hq : ∀ id, w.QuerySelector Site.query id cfg.query = Except.ok none)
    (hres : (doQuery lib cfg w remote).res = Except.ok ()) :
    Action.log [LogArg.str "no result for", LogArg.str cfg.query] ∈
      (doQuery lib cfg w remote).trace := by
  unfold doQuery at hres ⊢
  obtain ⟨id, hid, -⟩ := bind_res_ok_inv hres
  rw [bind_trace_ok _ _ _ hid]
  apply List.mem_append_right
  simp [callOrFatal, hq id, bind_eq, Prog.andThen, emit, pure_eq]

theorem recv_not_mem_of_sat {α : Type} {remote : Remote} {al : Call → Bool} {S : Stop → Prop}
    {m : Prog α} (h : Prog.Sat (SectionAction remote al false) S m) :
    Action.recv ∉ m.trace := by
  intro hmem
  have := h.1 _ hmem
  simp [SectionAction] at this

theorem ends_of_res {α : Type} {m : Prog α}
    (h : (∃ a, m.res = Except.ok a) ∨ m.res = Except.error Stop.blocked) : m.Ends := by
  intro s hs
  rcases h with ⟨a, ha⟩ | hb
  · rw [ha] at hs; simp at hs
  · rw [hb] at hs; simp at hs; exact hs.symm

/-- The receive on `done` occurs in a run that gets to the end of `main`
exactly when the last section performs it. -/
theorem recv_mem_main (lib : Lib) (cfg : Flags) (w : World) (remote : Remote) (sw : Bool)
    (site : String) (w1 : Bool) (tail : List Action)
    (htrace : (main lib cfg w).trace = (launch lib cfg w).trace ++
        ((connectLoop cfg w 10 0 (none, none)).trace ++
          ((setup cfg w remote).trace ++ ((enableEvents cfg remote).trace ++
            ((navigate w remote site).trace ++ ((oneShots lib cfg w remote sw).trace ++
              ((waitAndClose cfg w w1).trace ++ tail)))))))
    (htl : tail = [] ∨ tail = [Action.call remote Call.Close]) :
    Action.recv ∈ (main lib cfg w).trace ↔ (cfg.wait || w1) = true := by
  rw [← recv_mem_waitAndClose cfg w w1, htrace]
  constructor
  · intro h
    rcases List.mem_append.mp h with h | h
    · have := ((sat_launch lib cfg w).1 _ h).2.2.2.2
      simp [isRecv] at this
    rcases List.mem_append.mp h with h | h
    · have := (sat_connectLoop cfg w 10 0 (none, none)).1 _ h
      simp [LoopAction] at this
    rcases List.mem_append.mp h with h | h
    · exact absurd h (recv_not_mem_of_sat (sat_setup cfg w remote))
    rcases List.mem_append.mp h with h | h
    · exact absurd h (recv_not_mem_of_sat (sat_enableEvents (S := EarlyStop) cfg remote))
    rcases List.mem_append.mp h with h | h
    · exact absurd h (recv_not_mem_of_sat (sat_navigate w remote site))
    rcases List.mem_append.mp h with h | h
    · exact absurd h (recv_not_mem_of_sat (sat_oneShots lib cfg w remote sw))
    rcases List.mem_append.mp h with h | h
    · exact h
    · rcases htl with h2 | h2 <;> simp [h2] at h
  · intro h
    simp [h]

/-- C8: in a run of `main` that gets to line 413 (it returns, or stays in the
receive) with at least one of `-query`, `-eval`, `-set-html`, `-html`
requested, the receive on `done` is performed exactly when `-wait` is set.
If moreover `-query` is set and the selector matches no node, the run logs
"no result for" with the selector and never calls `ResolveNode`. -/
theorem one_shot_run_waits_only_on_request (lib : Lib) (cfg : Flags) (w : World)
    (hreq : cfg.query ≠ "" ∨ cfg.eval ≠ "" ∨ cfg.setHtml ≠ "" ∨ cfg.html = true)
    (hend : (main lib cfg w).res = Except.ok () ∨
      (main lib cfg w).res = Except.error Stop.blocked) :
    (Action.recv ∈ (main lib cfg w).trace ↔ cfg.wait = true) ∧
    (cfg.query ≠ "" →
      (∀ id, w.QuerySelector Site.query id cfg.query = Except.ok none) →
      Action.log [LogArg.str "no result for", LogArg.str cfg.query] ∈
          (main lib cfg w).trace ∧
        ∀ a ∈ (main lib cfg w).trace, callIs isResolveNode a = false) := by
  have hends : (main lib cfg w).Ends :=
    ends_of_res (hend.imp (fun h => ⟨(), h⟩) id)
  obtain ⟨remote, sw, site, w1, tail, htrace, htl, hsetup, hnav, hone, hres, -⟩ :=
    main_ends lib cfg w hends
  obtain ⟨hclear, -, hdq⟩ := oneShots_res lib cfg w remote sw w1 hone
  have hw1 : w1 = false := hclear hreq
  constructor
  · rw [recv_mem_main lib cfg w remote sw site w1 tail htrace htl, hw1]
    simp
  · intro hquery hq
    constructor
    · rw [htrace]
      have hlog := doQuery_logs_no_result lib cfg w remote hq (hdq hquery)
      have hmem : Action.log [LogArg.str "no result for", LogArg.str cfg.query] ∈
          (oneShots lib cfg w remote sw).trace := by
        unfold oneShots
        rw [if_pos hquery]
        exact mem_bind_left _ _ _ (mem_bind_left _ _ _ hlog)
      simp [hmem]
    · intro a ha
      rw [htrace] at ha
      rcases List.mem_append.mp ha with h | h
      · exact callIs_of_not_isCall a ((sat_launch lib cfg w).1 _ h).2.2.2.1
      rcases List.mem_append.mp h with h | h
      · have := (sat_connectLoop cfg w 10 0 (none, none)).1 _ h
        cases a <;> simp_all [LoopAction, callIs]
      rcases List.mem_append.mp h with h | h
      · refine callIs_of_sectionAction ?_ a ((sat_setup cfg w remote).1 a h)
        intro c hc
        cases c <;> simp_all [inInfo, inRegister, inSelectTab, isTabChoice, isResolveNode]
      rcases List.mem_append.mp h with h | h
      · refine callIs_of_sectionAction ?_ a
          ((sat_enableEvents (S := EarlyStop) cfg remote).1 a h)
        intro c hc
        cases c <;> simp_all [isEnable, isResolveNode]
      rcases List.mem_append.mp h with h | h
      · refine callIs_of_sectionAction ?_ a ((sat_navigate w remote site).1 a h)
        intro c hc
        cases c <;> simp_all [isNavigate, isResolveNode]
      rcases List.mem_append.mp h with h | h
      · refine callIs_of_sectionAction ?_ a
          ((sat_oneShots_noResolve lib cfg w remote sw hq).1 a h)
        intro c hc
        simp [inOneShotsNoResolve] at hc
        exact hc.2
      rcases List.mem_append.mp h with h | h
      · refine callIs_of_sectionAction ?_ a ((sat_waitAndClose cfg w w1 remote).1 a h)
        intro c hc
        simp [noCall] at hc
      · rcases htl with h2 | h2 <;> simp [h2] at h
        subst h
        simp [callIs, isResolveNode]

/-! ## Scenario A -/

theorem showInfo_res_plain (cfg : Flags) (w : World) (remote : Remote) (sw : Bool)
    (hl : cfg.listtabs = false) (hd : cfg.domains = false)
    (h : (showInfo cfg w remote).res = Except.ok sw) : sw = true := by
  unfold showInfo at h
  obtain ⟨v, -, h⟩ := bind_res_ok_inv h
  cases hv : cfg.version
  · simp [hv, hl, hd, bind_eq, Prog.andThen, emit, pure_eq] at h
    exact h
  · simp [hv, hl, hd, bind_eq, Prog.andThen, emit, pure_eq] at h
    exact h

theorem setup_inv (cfg : Flags) (w : World) (remote : Remote) (sw : Bool) (site : String)
    (h : (setup cfg w remote).res = Except.ok (sw, site)) :
    (showInfo cfg w remote).res = Except.ok sw ∧
      (selectTab cfg w remote).res = Except.ok site ∧
      (setup cfg w remote).trace = (showInfo cfg w remote).trace ++
        ((registerHandlers cfg remote).trace ++ (selectTab cfg w remote).trace) := by
  unfold setup at h ⊢
  obtain ⟨a, ha, h1⟩ := bind_res_ok_inv h
  obtain ⟨u, hu, h2⟩ := bind_res_ok_inv h1
  obtain ⟨b, hb, h3⟩ := bind_res_ok_inv h2
  simp at h3
  obtain ⟨rfl, rfl⟩ := h3
  refine ⟨ha, hb, ?_⟩
  rw [bind_trace_ok _ _ _ ha, bind_trace_ok _ _ _ hu, bind_trace_ok _ _ _ hb]
  simp

theorem waitAndClose_waiting (cfg : Flags) (w : World) (sw : Bool)
    (h : (cfg.wait || sw) = true) :
    ∃ post, (waitAndClose cfg w sw).trace =
        Action.log [LogArg.str "Wait for events..."] :: Action.recv :: post ∧
      ((waitAndClose cfg w sw).res = Except.ok () →
        post = [Action.log [LogArg.str "Closing"]]) := by
  unfold waitAndClose
  cases hd : w.doneSent
  · exact ⟨[], by simp [h, hd, bind_eq, Prog.andThen, emit, pure_eq, stop],
      by simp [h, hd, bind_eq, Prog.andThen, emit, pure_eq, stop]⟩
  · exact ⟨[Action.log [LogArg.str "Closing"]],
      by simp [h, hd, bind_eq, Prog.andThen, emit, pure_eq], fun _ => rfl⟩

/-- C3, as stated, fails: with the target URL as only argument, no tab open
and every flag at its default, `main` does perform the receive on `done`. -/
theorem scenario_A_performs_the_receive :
    scenarioA.args = ["https://example.com"] ∧ quietWorld.TabListPage = Except.ok [] ∧
    (main sampleLib scenarioA quietWorld).res = Except.ok () ∧
    ¬ (∀ a ∈ (main sampleLib scenarioA quietWorld).trace, isRecv a = false) := by
  refine ⟨rfl, rfl, rfl, ?_⟩
  decide

/-- C3, amended: in a run of `main` with a positional target URL `site` and an
empty tab list, with none of `-tabs`, `-domains`, `-query`, `-eval`,
`-set-html`, `-html` set, that gets to line 413, a new tab is created on
`site` and then `main` does wait: it logs "Wait for events..." and performs
the receive on `done`; only when that receive returns does it log "Closing"
and close the connection. -/
theorem scenario_A_waits_for_done (lib : Lib) (cfg : Flags) (w : World) (site : String)
    (rest : List String) (hargs : cfg.args = site :: rest)
    (htabs : w.TabListPage = Except.ok [])
    (hplain : cfg.listtabs = false ∧ cfg.domains = false ∧ cfg.query = "" ∧ cfg.eval = "" ∧
      cfg.setHtml = "" ∧ cfg.html = false)
    (hend : (main lib cfg w).res = Except.ok () ∨
      (main lib cfg w).res = Except.error Stop.blocked) :
    ∃ remote pre post, (main lib cfg w).trace =
        pre ++ Action.log [LogArg.str "Wait for events..."] :: Action.recv :: post ∧
      Action.call remote (Call.NewTab site) ∈ pre ∧
      (∀ a ∈ pre, isRecv a = false) ∧
      ((main lib cfg w).res = Except.ok () →
        post = [Action.log [LogArg.str "Closing"], Action.call remote Call.Close]) := by
  obtain ⟨hl, hd, hq, he, hs, hh⟩ := hplain
  have hends : (main lib cfg w).Ends :=
    ends_of_res (hend.imp (fun h => ⟨(), h⟩) id)
  obtain ⟨remote, sw, site2, w1, tail, htrace, htl, hsetup, hnav, hone, hres, htlok⟩ :=
    main_ends lib cfg w hends
  obtain ⟨hinfo, -, hst⟩ := setup_inv cfg w remote sw site2 hsetup
  have hsw : sw = true := showInfo_res_plain cfg w remote sw hl hd hinfo
  have hw1 : w1 = true := by
    rw [← hsw]
    refine (oneShots_res lib cfg w remote sw w1 hone).2.1 ?_
    simp [hq, he, hs, hh]
  obtain ⟨post0, hwait, hpost0⟩ := waitAndClose_waiting cfg w w1 (by simp [hw1])
  obtain ⟨hsel, -⟩ := selectTab_new cfg w remote site rest hargs [] htabs (Or.inl rfl)
  refine ⟨remote, (launch lib cfg w).trace ++
    ((connectLoop cfg w 10 0 (none, none)).trace ++
      ((setup cfg w remote).trace ++ ((enableEvents cfg remote).trace ++
        ((navigate w remote site2).trace ++ (oneShots lib cfg w remote sw).trace)))),
    post0 ++ tail, ?_, ?_, ?_, ?_⟩
  · rw [htrace, hwait]
    simp [List.append_assoc]
  · rw [hst, hsel]
    simp
  · intro a ha
    by_contra hne
    have hrecv : a = Action.recv := by
      cases a <;> simp_all [isRecv]
    subst hrecv
    rcases List.mem_append.mp ha with h | h
    · have := ((sat_launch lib cfg w).1 _ h).2.2.2.2
      simp [isRecv] at this
    rcases List.mem_append.mp h with h | h
    · have := (sat_connectLoop cfg w 10 0 (none, none)).1 _ h
      simp [LoopAction] at this
    rcases List.mem_append.mp h with h | h
    · exact absurd h (recv_not_mem_of_sat (sat_setup cfg w remote))
    rcases List.mem_append.mp h with h | h
    · exact absurd h (recv_not_mem_of_sat (sat_enableEvents (S := EarlyStop) cfg remote))
    rcases List.mem_append.mp h with h | h
    · exact absurd h (recv_not_mem_of_sat (sat_navigate w remote site2))
    · exact absurd h (recv_not_mem_of_sat (sat_oneShots lib cfg w remote sw))
  · intro hok
    rw [hpost0 (by rw [← hres]; exact hok), htlok hok]
    rfl

/-! ## The handlers `main` registers -/

theorem registerHandlers_trace (cfg : Flags) (remote : Remote) :
    (registerHandlers cfg remote).trace = registrations cfg remote := by
  unfold registerHandlers registrations register
  split_ifs <;> rfl

theorem handlersFor_navigationRequested (cfg : Flags) (remote : Remote) :
    handlersFor (EventName.method "Page.navigationRequested")
        (registerHandlers cfg remote).trace =
      if cfg.control ≠ "" then
        [Handler.navigationRequested remote (navigationResponse cfg.control)]
      else [] := by
  rw [registerHandlers_trace]
  unfold registrations handlersFor
  split_ifs <;> simp

theorem handlersFor_documentUpdated (cfg : Flags) (remote : Remote) :
    handlersFor (EventName.method "DOM.documentUpdated") (registerHandlers cfg remote).trace =
      (if cfg.screenshot then [Handler.screenshot remote] else []) ++
        (if cfg.pdf then [Handler.pdf remote] else []) := by
  rw [registerHandlers_trace]
  unfold registrations handlersFor
  split_ifs <;> simp

/-- C6: when `-control` is not empty, exactly one handler is registered for
"Page.navigationRequested"; the delivery of one such event, whatever its
parameters, returns after exactly one call of `ProcessNavigation`, which
carries the `navigationId` of the event and the decision fixed by the value
of `-control` ("proceed", "cancel" and "cancelIgnore" give the three decisions
of the same name). -/
theorem navigation_request_gets_one_reply (lib : Lib) (cfg : Flags) (remote : Remote)
    (params : Params) (hcontrol : cfg.control ≠ "") :
    handlersFor (EventName.method "Page.navigationRequested")
        (registerHandlers cfg remote).trace =
      [Handler.navigationRequested remote (navigationResponse cfg.control)] ∧
    (deliver lib (registerHandlers cfg remote).trace
      (EventName.method "Page.navigationRequested") params).res = Except.ok () ∧
    (deliver lib (registerHandlers cfg remote).trace
      (EventName.method "Page.navigationRequested") params).trace.countP
        (callIs isProcessNavigation) = 1 ∧
    Action.call remote (Call.ProcessNavigation (lib.paramsInt params "navigationId")
        (navigationResponse cfg.control)) ∈
      (deliver lib (registerHandlers cfg remote).trace
        (EventName.method "Page.navigationRequested") params).trace ∧
    navigationResponse "proceed" = NavigationResponse.NavigationProceed ∧
    navigationResponse "cancel" = NavigationResponse.NavigationCancel ∧
    navigationResponse "cancelIgnore" = NavigationResponse.NavigationCancelAndIgnore := by
  have hreg := handlersFor_navigationRequested cfg remote
  rw [if_pos hcontrol] at hreg
  refine ⟨hreg, ?_, ?_, ?_, by decide, by decide, by decide⟩
  · unfold deliver
    rw [hreg]
    rfl
  · unfold deliver
    rw [hreg]
    simp [invokeAll, runHandler, bind_eq, Prog.andThen, emit, pure_eq, callIs,
      isProcessNavigation]
  · unfold deliver
    rw [hreg]
    simp [invokeAll, runHandler, bind_eq, Prog.andThen, emit, pure_eq]

/-! ## Scenario B -/

/-- C7, as stated, fails: with `-screenshot` and `-pdf` both set, the single
"DOM.documentUpdated" event reaches the two handlers registered for it, and
each of them executes `done <- true`. -/
theorem screenshot_with_pdf_sends_twice :
    bothShots.screenshot = true ∧
    handlersFor (EventName.method "DOM.documentUpdated")
        (registerHandlers bothShots (some 1)).trace =
      [Handler.screenshot (some 1), Handler.pdf (some 1)] ∧
    (deliver sampleLib (registerHandlers bothShots (some 1)).trace
      (EventName.method "DOM.documentUpdated") []).trace.countP
        (callIs isSaveScreenshot) = 1 ∧
    (deliver sampleLib (registerHandlers bothShots (some 1)).trace
      (EventName.method "DOM.documentUpdated") []).trace.countP isSend = 2 := by
  refine ⟨rfl, ?_, ?_, ?_⟩ <;> decide

/-- C7, amended: with `-screenshot` set and `-pdf` not set, the delivery of
one "DOM.documentUpdated" event to the handlers registered for that name
logs, calls `SaveScreenshot("screenshot.png", 0644, 0, true)` once and
executes `done <- true` once, and nothing else. -/
theorem screenshot_alone_sends_once (lib : Lib) (cfg : Flags) (remote : Remote)
    (params : Params) (hs : cfg.screenshot = true) (hp : cfg.pdf = false) :
    (deliver lib (registerHandlers cfg remote).trace
        (EventName.method "DOM.documentUpdated") params).trace =
      [Action.log [LogArg.str "document updated. taking screenshot..."],
        Action.call remote (Call.SaveScreenshot "screenshot.png" 0o644 0 true),
        Action.send] ∧
    (deliver lib (registerHandlers cfg remote).trace
      (EventName.method "DOM.documentUpdated") params).res = Except.ok () ∧
    (deliver lib (registerHandlers cfg remote).trace
      (EventName.method "DOM.documentUpdated") params).trace.countP
        (callIs isSaveScreenshot) = 1 ∧
    (deliver lib (registerHandlers cfg remote).trace
      (EventName.method "DOM.documentUpdated") params).trace.countP isSend = 1 := by
  have hreg := handlersFor_documentUpdated cfg remote
  simp only [hs, hp, if_true, Bool.false_eq_true, if_false, List.append_nil] at hreg
  unfold deliver
  rw [hreg]
  refine ⟨rfl, rfl, ?_, ?_⟩
  · simp [invokeAll, runHandler, bind_eq, Prog.andThen, emit, pure_eq, callIs,
      isSaveScreenshot, isSend]
  · simp [invokeAll, runHandler, bind_eq, Prog.andThen, emit, pure_eq, callIs,
      isSaveScreenshot, isSend]

/-! ## The tab index -/

/-- C2: what `main` does with one tab open.  With `-tab 1`, an index equal to
`len(tabs)`, the test `tab > len(tabs)` of line 318 lets the index through and
`tabs[tab]` panics; so it does with `-tab -1`; no tab is activated in either
run.  With `-tab 2` the index is reset and `tabs[0]` is activated. -/
theorem tab_index_at_length_panics :
    oneTabWorld.TabListPage = Except.ok [⟨"T0", "about:blank"⟩] ∧
    (main sampleLib tabOne oneTabWorld).res =
      Except.error (Stop.panic "index out of range") ∧
    (main sampleLib tabOne oneTabWorld).trace.countP (callIs isActivateTab) = 0 ∧
    (main sampleLib tabMinusOne oneTabWorld).res =
      Except.error (Stop.panic "index out of range") ∧
    (main sampleLib tabMinusOne oneTabWorld).trace.countP (callIs isActivateTab) = 0 ∧
    (main sampleLib tabTwo oneTabWorld).trace.countP
      (callIs fun c => decide (c = Call.ActivateTab ⟨"T0", "about:blank"⟩)) = 1 := by
  refine ⟨rfl, rfl, ?_, rfl, ?_, ?_⟩ <;> decide

/-! ## The logging handlers -/

@[simp] theorem pure_bind_eq {α β : Type} (a : α) (f : α → Prog β) :
    (pure a : Prog α) >>= f = f a := by
  rw [bind_eq, pure_eq]
  simp [Prog.andThen]

@[simp] theorem stop_bind_eq {α β : Type} (s : Stop) (f : α → Prog β) :
    (stop s : Prog α) >>= f = stop s := by
  rw [bind_eq]
  simp [Prog.andThen, stop]

theorem previewProperties_spec (lib : Lib) :
    ∀ (ps : List Value) (i : Nat) (v : String),
      (previewProperties lib ps i v).trace = [] ∧
      (ps.all Value.isMap = true → ∃ v2, (previewProperties lib ps i v).res = Except.ok v2) ∧
      (ps.all Value.isMap = false →
        (previewProperties lib ps i v).res =
          Except.error (Stop.panic "interface conversion")) := by
  intro ps
  induction ps with
  | nil => intro i v; simp [previewProperties]
  | cons p rest ih =>
    intro i v
    cases p with
    | obj fields =>
      simp only [previewProperties, assertMap, pure_bind_eq, List.all_cons, Value.isMap,
        Bool.true_and]
      exact ih _ _
    | null => simp [previewProperties, assertMap, Value.isMap]
    | bool b => simp [previewProperties, assertMap, Value.isMap]
    | num n => simp [previewProperties, assertMap, Value.isMap]
    | str t => simp [previewProperties, assertMap, Value.isMap]
    | arr items => simp [previewProperties, assertMap, Value.isMap]

theorem prog_eq_pure {α : Type} {m : Prog α} {a : α} (ht : m.trace = [])
    (hr : m.res = Except.ok a) : m = pure a := by
  cases m
  simp_all [pure_eq]

theorem prog_eq_stop {α : Type} {m : Prog α} {s : Stop} (ht : m.trace = [])
    (hr : m.res = Except.error s) : m = stop s := by
  cases m
  simp_all [stop]

theorem consoleArgs_spec (lib : Lib) :
    ∀ (args : List Value) (l : List LogArg),
      (consoleArgs lib args l).trace = [] ∧
      (args.all consoleArgShape = true → ∃ l2, (consoleArgs lib args l).res = Except.ok l2) ∧
      (args.all consoleArgShape = false →
        (consoleArgs lib args l).res = Except.error (Stop.panic "interface conversion")) := by
  intro args
  induction args with
  | nil => intro l; simp [consoleArgs]
  | cons a rest ih =>
    intro l
    cases a with
    | obj arg =>
      rw [consoleArgs]
      simp only [assertMap, pure_bind_eq, List.all_cons]
      cases hv : index arg "value" with
      | null =>
        cases hpv : index arg "preview" with
        | null =>
          cases ht : index arg "type" with
          | str t =>
            simp only [hv, hpv, ht, assertString, consoleArgShape, Value.isString,
              Value.notNil, pure_bind_eq, Bool.false_eq_true, if_false, Bool.false_or,
              Bool.true_and]
            exact ih _
          | _ =>
            simp [hv, hpv, ht, assertString, consoleArgShape, Value.isString, Value.notNil]
        | obj pv =>
          cases hd : index pv "description" with
          | str d =>
            cases hps : index pv "properties" with
            | arr ps =>
              obtain ⟨h1, h2, h3⟩ := previewProperties_spec lib ps 0 (d ++ "\x7b")
              simp only [hv, hpv, hd, hps, assertMap, assertString, assertSlice,
                consoleArgShape, previewShape, Value.isString, Value.notNil, pure_bind_eq,
                Bool.false_eq_true, if_false, if_true, Bool.false_or, Bool.true_and]
              cases hall : ps.all Value.isMap
              · rw [prog_eq_stop h1 (h3 hall)]
                simp
              · obtain ⟨v2, hv2⟩ := h2 hall
                rw [prog_eq_pure h1 hv2]
                simp only [pure_bind_eq, Bool.true_and]
                exact ih _
            | _ =>
              simp [hv, hpv, hd, hps, assertMap, assertString, assertSlice,
                consoleArgShape, previewShape, Value.isString, Value.notNil]
          | _ =>
            simp [hv, hpv, hd, assertMap, assertString, assertSlice,
              consoleArgShape, previewShape, Value.isString, Value.notNil]
        | _ =>
          simp [hv, hpv, assertMap, assertString, assertSlice,
            consoleArgShape, previewShape, Value.isString, Value.notNil]
      | _ =>
        simp only [hv, consoleArgShape, Value.notNil, if_true, Bool.true_or, Bool.true_and]
        exact ih _
    | null => simp [consoleArgs, assertMap, consoleArgShape]
    | bool b => simp [consoleArgs, assertMap, consoleArgShape]
    | num n => simp [consoleArgs, assertMap, consoleArgShape]
    | str t => simp [consoleArgs, assertMap, consoleArgShape]
    | arr items => simp [consoleArgs, assertMap, consoleArgShape]

/-- C4, as stated, fails: on a parameter mapping without any key, each of the
four logging handlers panics on its first type assertion and logs nothing. -/
theorem logging_handlers_panic_without_keys :
    PanickedBeforeLogging (runHandler sampleLib Handler.requestWillBeSent []) ∧
    PanickedBeforeLogging (runHandler sampleLib Handler.responseReceived []) ∧
    PanickedBeforeLogging (runHandler sampleLib Handler.entryAdded []) ∧
    PanickedBeforeLogging (runHandler sampleLib Handler.consoleAPICalled []) :=
  ⟨⟨rfl, rfl⟩, ⟨rfl, rfl⟩, ⟨rfl, rfl⟩, ⟨rfl, rfl⟩⟩

/-- C4, amended: a logging handler logs one line and returns when the
parameters of the event have the shape it relies on; on any other mapping it
panics on a type assertion before it logs. -/
theorem logging_handler_returns_on_expected_shape (lib : Lib) (h : Handler)
    (params : Params) (hh : isLoggingHandler h = true) :
    (expectedShape h params = true → LoggedAndReturned (runHandler lib h params)) ∧
    (expectedShape h params = false → PanickedBeforeLogging (runHandler lib h params)) := by
  cases h with
  | requestWillBeSent =>
    cases hr : index params "request" <;>
      simp [expectedShape, requestShape, hr, Value.isMap, runHandler, assertMap,
        LoggedAndReturned, PanickedBeforeLogging, bind_eq, Prog.andThen, emit, pure_eq, stop]
  | responseReceived =>
    cases hr : index params "response" with
    | obj resp =>
      cases hu : index resp "url" with
      | str u =>
        cases hs : index resp "status" with
        | num n =>
          cases hm : index resp "mimeType" <;>
            simp [expectedShape, responseShape, hr, hu, hs, hm, Value.isString,
              Value.isNumber, runHandler, assertMap, assertString, assertFloat64,
              LoggedAndReturned, PanickedBeforeLogging, bind_eq, Prog.andThen, emit, pure_eq,
              stop]
        | _ =>
          simp [expectedShape, responseShape, hr, hu, hs, Value.isString,
            Value.isNumber, runHandler, assertMap, assertString, assertFloat64,
            LoggedAndReturned, PanickedBeforeLogging, bind_eq, Prog.andThen, emit, pure_eq,
            stop]
      | _ =>
        simp [expectedShape, responseShape, hr, hu, Value.isString,
          Value.isNumber, runHandler, assertMap, assertString, assertFloat64,
          LoggedAndReturned, PanickedBeforeLogging, bind_eq, Prog.andThen, emit, pure_eq,
          stop]
    | _ =>
      simp [expectedShape, responseShape, hr, runHandler, assertMap,
        LoggedAndReturned, PanickedBeforeLogging, bind_eq, Prog.andThen, emit, pure_eq, stop]
  | entryAdded =>
    cases hr : index params "entry" <;>
      simp [expectedShape, entryShape, hr, Value.isMap, runHandler, assertMap,
        LoggedAndReturned, PanickedBeforeLogging, bind_eq, Prog.andThen, emit, pure_eq, stop]
  | consoleAPICalled =>
    cases ht : index params "type" with
    | str t =>
      cases ha : index params "args" with
      | arr args =>
        obtain ⟨h1, h2, h3⟩ := consoleArgs_spec lib args [LogArg.str "CONSOLE", LogArg.str t]
        simp only [expectedShape, consoleShape, ht, ha, Value.isString, Bool.true_and,
          runHandler, assertString, assertSlice, pure_bind_eq]
        constructor
        · intro hall
          obtain ⟨l2, hl2⟩ := h2 hall
          rw [prog_eq_pure h1 hl2]
          simp [LoggedAndReturned]
        · intro hall
          rw [prog_eq_stop h1 (h3 hall)]
          simp [PanickedBeforeLogging]
      | _ =>
        simp [expectedShape, consoleShape, ht, ha, Value.isString, runHandler, assertString,
          assertSlice, LoggedAndReturned, PanickedBeforeLogging]
    | _ =>
      simp [expectedShape, consoleShape, ht, Value.isString, runHandler, assertString,
        assertSlice, LoggedAndReturned, PanickedBeforeLogging]
  | closed => simp [isLoggingHandler] at hh
  | navigationRequested r n => simp [isLoggingHandler] at hh
  | screenshot r => simp [isLoggingHandler] at hh
  | pdf r => simp [isLoggingHandler] at hh

/-! ## The theorems at sample inputs -/

/-- Scenario D: three refused attempts, then the connection. -/
theorem connect_retries_until_success_witness :
    (main sampleLib scenarioA flakyWorld).trace.countP isConnect = 4 ∧
    (main sampleLib scenarioA flakyWorld).trace.countP isSleep = 3 ∧
    (main sampleLib scenarioA flakyWorld).trace.countP isConnectFailure = 3 ∧
    Action.call (some 1) Call.Version ∈ (main sampleLib scenarioA flakyWorld).trace :=
  have h := connect_retries_until_success sampleLib scenarioA flakyWorld 3 (by decide)
    (by intro i hi; interval_cases i <;> decide) (by decide) rfl
  ⟨h.1, h.2.1, h.2.2.1, h.2.2.2.2.1⟩

/-- Ten refused attempts: the fatal error after 10 `Connect` and 9 `Sleep`. -/
theorem connect_exhaustion_is_the_fatal_case_witness :
    (main sampleLib scenarioA unreachableWorld).res =
      Except.error (Stop.fatal "cannot connect to browser" none) ∧
    (main sampleLib scenarioA unreachableWorld).trace.countP isConnect = 10 ∧
    (main sampleLib scenarioA unreachableWorld).trace.countP isSleep = 9 ∧
    ∀ a ∈ (main sampleLib scenarioA unreachableWorld).trace, isCall a = false :=
  (connect_exhaustion_is_the_fatal_case sampleLib scenarioA unreachableWorld rfl).2
    (fun _ _ => by simp [unreachableWorld])

/-- The new-tab path on the quiet browser, which has no tab open. -/
theorem new_tab_path_needs_no_navigate_witness :
    (main sampleLib scenarioA quietWorld).trace.countP (callIs isNewTab) = 1 ∧
    Action.call (some 1) (Call.NewTab "https://example.com") ∈
      (main sampleLib scenarioA quietWorld).trace ∧
    ∀ a ∈ (main sampleLib scenarioA quietWorld).trace,
      callIs isActivateTab a = false ∧ callIs isNavigate a = false :=
  new_tab_path_needs_no_navigate sampleLib scenarioA quietWorld (some 1)
    "https://example.com" [] rfl [] rfl (Or.inl rfl)
    ⟨rfl, ⟨0, by decide, by intro i hi; omega, rfl⟩, true, rfl⟩

/-- Scenario C: `-query h1` on a page where no node matches. -/
theorem one_shot_run_waits_only_on_request_witness :
    Action.recv ∉ (main sampleLib queryH1 quietWorld).trace ∧
    Action.log [LogArg.str "no result for", LogArg.str "h1"] ∈
      (main sampleLib queryH1 quietWorld).trace ∧
    ∀ a ∈ (main sampleLib queryH1 quietWorld).trace, callIs isResolveNode a = false :=
  have h := one_shot_run_waits_only_on_request sampleLib queryH1 quietWorld
    (Or.inl (by decide)) (Or.inl rfl)
  ⟨fun hr => by have := h.1.mp hr; simp [queryH1] at this,
    (h.2 (by decide) (fun _ => rfl)).1, (h.2 (by decide) (fun _ => rfl)).2⟩

/-- Scenario A on the quiet browser. -/
theorem scenario_A_waits_for_done_witness :
    ∃ remote pre post, (main sampleLib scenarioA quietWorld).trace =
        pre ++ Action.log [LogArg.str "Wait for events..."] :: Action.recv :: post ∧
      Action.call remote (Call.NewTab "https://example.com") ∈ pre ∧
      (∀ a ∈ pre, isRecv a = false) ∧
      ((main sampleLib scenarioA quietWorld).res = Except.ok () →
        post = [Action.log [LogArg.str "Closing"], Action.call remote Call.Close]) :=
  scenario_A_waits_for_done sampleLib scenarioA quietWorld "https://example.com" [] rfl rfl
    ⟨rfl, rfl, rfl, rfl, rfl, rfl⟩ (Or.inl rfl)

/-- The request with identifier 7 under `-control cancel`. -/
theorem navigation_request_gets_one_reply_witness :
    (deliver sampleLib (registerHandlers controlCancel (some 1)).trace
      (EventName.method "Page.navigationRequested") navigationParams).trace.countP
        (callIs isProcessNavigation) = 1 ∧
    Action.call (some 1) (Call.ProcessNavigation 7 NavigationResponse.NavigationCancel) ∈
      (deliver sampleLib (registerHandlers controlCancel (some 1)).trace
        (EventName.method "Page.navigationRequested") navigationParams).trace :=
  have h := navigation_request_gets_one_reply sampleLib controlCancel (some 1)
    navigationParams (by decide)
  ⟨h.2.2.1, h.2.2.2.1⟩

/-- Scenario B with `-screenshot` alone. -/
theorem screenshot_alone_sends_once_witness :
    (deliver sampleLib (registerHandlers screenshotOnly (some 1)).trace
      (EventName.method "DOM.documentUpdated") []).trace.countP
        (callIs isSaveScreenshot) = 1 ∧
    (deliver sampleLib (registerHandlers screenshotOnly (some 1)).trace
      (EventName.method "DOM.documentUpdated") []).trace.countP isSend = 1 :=
  have h := screenshot_alone_sends_once sampleLib screenshotOnly (some 1) [] rfl rfl
  ⟨h.2.2.1, h.2.2.2⟩

/-- A request event that holds its request is logged. -/
theorem logging_handler_returns_on_expected_shape_witness :
    LoggedAndReturned (runHandler sampleLib Handler.requestWillBeSent requestParams) :=
  (logging_handler_returns_on_expected_shape sampleLib Handler.requestWillBeSent
    requestParams rfl).1 rfl

end Godet
